import Mathlib

/-!
# AirPoint gesture controller: a shallow embedding

This file embeds the gesture-recognition and cursor-control core of the
AirPoint hand-tracking controller (`main.py`, class
`HandCenterGestureController`) as a computable state machine over `ℚ`, and
settles the specification claims against it.

Modelling conventions:

* Python floats become `ℚ`.  `math.sqrt` and `np` distance computations are
  modelled by `ratSqrt` (proved equal to Mathlib's `Rat.sqrt`); every
  concrete evaluation in this file applies it to a perfect rational square
  (axis-aligned landmark layouts), where it agrees exactly with the real
  square root.
* The 21-landmark array is a function `ℕ → ℚ × ℚ`.
* OS pointer commands (`pyautogui` calls) are recorded as an event trace;
  the OS cursor position is part of the modelled world and is read back by
  `pyautogui.position()`.  Calls that the source wraps in `try`/`except`
  carry a per-tick failure flag; a failing call emits no event and control
  jumps to the corresponding handler, exactly as in the source.
* Each early `return` of `detect_gestures` is modelled by a section
  function returning `World ⊕ StepOut` (fall through on the left).
-/

namespace AirPoint

/-- The 21 hand landmarks, index to normalized (x, y), modelling the numpy
landmark array produced by `get_landmarks`. -/
def Landmarks : Type := ℕ → ℚ × ℚ

/-- The `calibration` dictionary: normalized bounds plus the stored
`tremor_std` and the stored per-profile `calibration_margin` field
(`_migrate_v0_profile` / `save_profile` keep one inside the record). -/
structure Calibration where
  left : ℚ
  right : ℚ
  top : ℚ
  bottom : ℚ
  tremor_std : Option ℚ
  calibration_margin : ℚ
deriving DecidableEq

/-- The configurable controller attributes set by `_apply_config`.
`calibration_margin` here is the session value taken from
`thresholds["calibration_margin"]`, distinct from the field stored inside
the `Calibration` record. -/
structure Config where
  sensitivity : ℚ
  smoothing_factor : ℚ
  pinch_threshold : Option ℚ
  fist_threshold : Option ℚ
  drag_threshold : ℚ
  action_cooldown : ℚ
  scroll_dead_zone : ℚ
  scroll_threshold_val : ℚ
  scroll_amount : ℚ
  screen_edge_margin : ℚ
  cursor_dead_zone : ℚ
  calibration_margin : ℚ
  dwell_click_enabled : Bool
  dwell_click_radius : ℚ
  dwell_click_duration : ℚ
  gaze_detection_enabled : Bool
  calibration : Option Calibration
  screen_width : ℚ
  screen_height : ℚ
deriving DecidableEq

/-- The mutable per-tick gesture state of the controller (the plain
instance fields initialised in `__init__` and reset on hand loss /
safety trip). -/
structure GState where
  pinch_start_time : Option ℚ
  is_dragging : Bool
  drag_start_hand_pos : Option (ℚ × ℚ)
  drag_start_screen_pos : Option (ℚ × ℚ)
  prev_hand_center : Option (ℚ × ℚ)
  last_action_time : ℚ
  fist_history : List Bool
  scroll_reference_y : Option ℚ
  scroll_accumulated : ℚ
  scroll_exit_counter : ℕ
  smoothed_screen_pos : Option (ℚ × ℚ)
  smoothed_pass2 : Option (ℚ × ℚ)
  last_output_pos : Option (ℚ × ℚ)
  prev_raw_pos : Option (ℚ × ℚ)
  dwell_reference_pos : Option (ℚ × ℚ)
  dwell_start_time : Option ℚ
  dwell_triggered : Bool
deriving DecidableEq

/-- Gesture state as initialised in `__init__`. -/
def initGState : GState where
  pinch_start_time := none
  is_dragging := false
  drag_start_hand_pos := none
  drag_start_screen_pos := none
  prev_hand_center := none
  last_action_time := 0
  fist_history := []
  scroll_reference_y := none
  scroll_accumulated := 0
  scroll_exit_counter := 0
  smoothed_screen_pos := none
  smoothed_pass2 := none
  last_output_pos := none
  prev_raw_pos := none
  dwell_reference_pos := none
  dwell_start_time := none
  dwell_triggered := false

/-- The OS pointer commands issued through `pyautogui`. -/
inductive OSEvent where
  | buttonDown : OSEvent
  | buttonUp : OSEvent
  | click : OSEvent
  | rightClick : OSEvent
  | scroll (amount : ℚ) : OSEvent
  | moveTo (x y : ℚ) : OSEvent
deriving DecidableEq, Repr

/-- The per-tick result strings of `detect_gestures` / `_tracking_tick`. -/
inductive Action where
  | no_hand : Action
  | idle : Action
  | cursor_control : Action
  | pinch_click : Action
  | drag_started : Action
  | dragging : Action
  | drag_ended : Action
  | fist_right_click : Action
  | two_finger_scroll : Action
  | scroll_mode_active : Action
  | dwell_click : Action
  | pinch_waiting (remaining : ℚ) : Action
  | safety_disabled : Action
  | disabled : Action
  | drag_failed : Action
  | drag_end_failed : Action
  | click_failed : Action
deriving DecidableEq, Repr

/-- Gesture state plus the OS cursor position (what `pyautogui.position()`
reports and `pyautogui.moveTo` updates). -/
structure World where
  gs : GState
  mouse : ℚ × ℚ
deriving DecidableEq

/-- Per-tick failure injection for the `pyautogui` calls that the source
wraps in `try`/`except`. -/
structure OSFlags where
  position_fails : Bool
  mouse_down_fails : Bool
  mouse_up_fails : Bool
  click_fails : Bool
  move_fails : Bool
deriving DecidableEq

/-- All OS calls succeed this tick. -/
def OSFlags.ok : OSFlags where
  position_fails := false
  mouse_down_fails := false
  mouse_up_fails := false
  click_fails := false
  move_fails := false

/-- Result of one tick: updated world, emitted OS events (in order), and
the returned action string. -/
structure StepOut where
  w : World
  events : List OSEvent
  act : Action
deriving DecidableEq

/-! ## A kernel-reducible square root

`Nat.sqrt` is defined by well-founded recursion and does not reduce inside
the kernel, so concrete runs could not be settled by `decide` through it.
`sqrtNat` is a fuel-driven binary search proved equal to `Nat.sqrt`
(`sqrtNat_eq_sqrt`); `ratSqrt` is then definitionally the same floor
square root as Mathlib's `Rat.sqrt` (`ratSqrt_eq_sqrt`) and stands in for
Python's `math.sqrt`. -/

/-- Binary search for the integer square root of `n` on `[lo, hi]`,
consuming one unit of fuel per step. -/
def isqrtAux (n : ℕ) : ℕ → ℕ → ℕ → ℕ
  | 0, lo, _ => lo
  | fuel + 1, lo, hi =>
    if hi ≤ lo then lo
    else
      let mid := (lo + hi + 1) / 2
      if mid * mid ≤ n then isqrtAux n fuel mid hi
      else isqrtAux n fuel lo (mid - 1)

/-- Kernel-reducible integer square root. -/
def sqrtNat (n : ℕ) : ℕ := isqrtAux n n 0 n

/-- Kernel-reducible version of `Int.sqrt`. -/
def intSqrt (z : ℤ) : ℤ := sqrtNat z.toNat

/-- Kernel-reducible version of `Rat.sqrt`, standing in for
`math.sqrt`. -/
def ratSqrt (q : ℚ) : ℚ := mkRat (intSqrt q.num) (sqrtNat q.den)

/-! ## Pose classifier (`calculate_distance`, `count_extended_fingers`,
`detect_fist`, `detect_open_hand`, pinch computation) -/

/-- `calculate_distance`: Euclidean distance between two landmark points
(`math.sqrt` modelled by `ratSqrt`). -/
def calculate_distance (p q : ℚ × ℚ) : ℚ :=
  ratSqrt ((p.1 - q.1) ^ 2 + (p.2 - q.2) ^ 2)

/-- `calculate_hand_center`: mean of wrist and the four MCP landmarks. -/
def calculate_hand_center (lm : Landmarks) : ℚ × ℚ :=
  (((lm 0).1 + (lm 5).1 + (lm 9).1 + (lm 13).1 + (lm 17).1) / 5,
   ((lm 0).2 + (lm 5).2 + (lm 9).2 + (lm 13).2 + (lm 17).2) / 5)

/-- `count_extended_fingers`: the five per-finger extension booleans.
Thumb (tip 4, pip 3) compares wrist distances with a 0.03 offset; the other
four fingers compare tip y against pip y plus 0.01. -/
def finger_states (lm : Landmarks) : List Bool :=
  [decide (calculate_distance (lm 3) (lm 0) + 3 / 100 <
      calculate_distance (lm 4) (lm 0)),
   decide ((lm 8).2 < (lm 6).2 + 1 / 100),
   decide ((lm 12).2 < (lm 10).2 + 1 / 100),
   decide ((lm 16).2 < (lm 14).2 + 1 / 100),
   decide ((lm 20).2 < (lm 18).2 + 1 / 100)]

/-- `extended_fingers`, the count returned by `count_extended_fingers`. -/
def extended_count (lm : Landmarks) : ℕ :=
  (finger_states lm).count true

/-- The pinch test inlined in `detect_gestures` (lines 2115-2116):
`pinch_threshold is not None and pinch_distance < pinch_threshold`. -/
def isPinched (cfg : Config) (lm : Landmarks) : Bool :=
  match cfg.pinch_threshold with
  | none => false
  | some th => decide (calculate_distance (lm 4) (lm 8) < th)

/-- `detect_fist`: disabled threshold short-circuits to `False`; otherwise
at most one extended finger and mean fingertip distance to the palm proxy
(landmark 9) below the personal threshold. -/
def detect_fist (cfg : Config) (lm : Landmarks) : Bool :=
  match cfg.fist_threshold with
  | none => false
  | some th =>
    let palm := lm 9
    let avg_distance :=
      (calculate_distance (lm 4) palm + calculate_distance (lm 8) palm +
       calculate_distance (lm 12) palm + calculate_distance (lm 16) palm +
       calculate_distance (lm 20) palm) / 5
    decide (extended_count lm ≤ 1) && decide (avg_distance < th)

/-- `detect_open_hand`: at least three extended fingers. -/
def detect_open_hand (lm : Landmarks) : Bool :=
  decide (3 ≤ extended_count lm)

/-- `is_safe_to_control`: true when gaze detection is disabled, otherwise
the tick's looking-at-screen verdict. -/
def is_safe_to_control (cfg : Config) (looking : Bool) : Bool :=
  !cfg.gaze_detection_enabled || looking

/-! ## Cursor mapper (`map_to_screen`) -/

/-- The raw calibration mapping of `map_to_screen` (lines 1770-1790):
expand the calibration box by the session margin, normalize, clamp to
[0, 1] and scale to the screen; uncalibrated fallback scales the raw
normalized position directly. -/
def mapRaw (cfg : Config) (hand_x hand_y : ℚ) : ℚ × ℚ :=
  match cfg.calibration with
  | none => (hand_x * cfg.screen_width, hand_y * cfg.screen_height)
  | some cal =>
    let range_x := cal.right - cal.left
    let range_y := cal.bottom - cal.top
    let margin_x := range_x * cfg.calibration_margin
    let margin_y := range_y * cfg.calibration_margin
    let norm_x := (hand_x - (cal.left - margin_x)) / (range_x + 2 * margin_x)
    let norm_y := (hand_y - (cal.top - margin_y)) / (range_y + 2 * margin_y)
    let norm_x := max 0 (min 1 norm_x)
    let norm_y := max 0 (min 1 norm_y)
    (norm_x * cfg.screen_width, norm_y * cfg.screen_height)

/-- The final clamp of `map_to_screen` to the screen bounds minus
`screen_edge_margin` (lines 1829-1831). -/
def clampEdge (cfg : Config) (p : ℚ × ℚ) : ℚ × ℚ :=
  (max cfg.screen_edge_margin (min (cfg.screen_width - cfg.screen_edge_margin) p.1),
   max cfg.screen_edge_margin (min (cfg.screen_height - cfg.screen_edge_margin) p.2))

/-- The smoothing state reached after feeding `map_to_screen` one raw
position from a cold start: every stage holds the mapped raw position and
the last emitted output is its edge-margin clamp. -/
def steadyState (cfg : Config) (s : GState) (p : ℚ × ℚ) : GState :=
  { s with prev_raw_pos := some p, smoothed_screen_pos := some p,
           smoothed_pass2 := some p, last_output_pos := some (clampEdge cfg p) }

/-- `map_to_screen`: raw calibration mapping, velocity-adaptive alpha,
two cascaded EMA passes, dead-zone filter against the last emitted
position, and the edge-margin clamp.  Returns the updated smoothing state
together with the emitted screen position. -/
def map_to_screen (cfg : Config) (s : GState) (hand_x hand_y : ℚ) :
    GState × ℚ × ℚ :=
  let raw := mapRaw cfg hand_x hand_y
  let base_alpha := cfg.smoothing_factor
  let alpha :=
    match s.prev_raw_pos with
    | some p =>
      let velocity := ratSqrt ((raw.1 - p.1) ^ 2 + (raw.2 - p.2) ^ 2)
      let speed_ratio := min (velocity / 80) 1
      base_alpha + (85 / 100 - base_alpha) * (1 - speed_ratio)
    | none => base_alpha
  let s := { s with prev_raw_pos := some raw }
  let sm :=
    match s.smoothed_screen_pos with
    | none => raw
    | some sp => (alpha * sp.1 + (1 - alpha) * raw.1,
                  alpha * sp.2 + (1 - alpha) * raw.2)
  let s := { s with smoothed_screen_pos := some sm }
  let alpha2 := base_alpha * (8 / 10)
  let p2 :=
    match s.smoothed_pass2 with
    | none => sm
    | some pp => (alpha2 * pp.1 + (1 - alpha2) * sm.1,
                  alpha2 * pp.2 + (1 - alpha2) * sm.2)
  let s := { s with smoothed_pass2 := some p2 }
  match s.last_output_pos with
  | some lp =>
    if |p2.1 - lp.1| < cfg.cursor_dead_zone ∧ |p2.2 - lp.2| < cfg.cursor_dead_zone then
      (s, lp)
    else
      let out := clampEdge cfg p2
      ({ s with last_output_pos := some out }, out)
  | none =>
    let out := clampEdge cfg p2
    ({ s with last_output_pos := some out }, out)

/-! ## Two-finger scroll (`detect_two_finger_scroll`) -/

/-- The two-finger pose test of `detect_two_finger_scroll`: index and
middle extended, ring and pinky not, thumb ignored. -/
def is_two_finger_pose (lm : Landmarks) : Bool :=
  let fs := finger_states lm
  fs.getD 1 false && fs.getD 2 false && !fs.getD 3 false && !fs.getD 4 false

/-- The average Y of the index and middle fingertips, the scroll
tracking quantity. -/
def two_finger_y (lm : Landmarks) : ℚ := ((lm 8).2 + (lm 12).2) / 2

/-- `detect_two_finger_scroll`: sticky two-finger pose with a three-frame
exit grace, reference-Y anchoring, dead-zone gating, accumulation of the
movement since the reference, and a signed fixed-amount scroll once the
accumulator passes the threshold.  Returns the updated state, the
`pyautogui.scroll` events emitted, and the function's boolean result. -/
def detect_two_finger_scroll (cfg : Config) (s : GState) (lm : Landmarks) :
    GState × List OSEvent × Bool :=
  if !is_two_finger_pose lm then
    let s := { s with scroll_exit_counter := s.scroll_exit_counter + 1 }
    if 3 < s.scroll_exit_counter then
      ({ s with scroll_reference_y := none, scroll_accumulated := 0,
                scroll_exit_counter := 0 }, [], false)
    else
      (s, [], false)
  else
    let s := { s with scroll_exit_counter := 0 }
    let current_fingers_y := two_finger_y lm
    match s.scroll_reference_y with
    | none =>
      ({ s with scroll_reference_y := some current_fingers_y,
                scroll_accumulated := 0 }, [], true)
    | some ref =>
      let movement := current_fingers_y - ref
      if |movement| < cfg.scroll_dead_zone then
        (s, [], true)
      else
        let s := { s with scroll_accumulated := s.scroll_accumulated + movement }
        if cfg.scroll_threshold_val ≤ |s.scroll_accumulated| then
          let amount :=
            if 0 < s.scroll_accumulated then -cfg.scroll_amount else cfg.scroll_amount
          ({ s with scroll_accumulated := 0,
                    scroll_reference_y := some current_fingers_y },
           [OSEvent.scroll amount], true)
        else
          (s, [], true)

/-! ## Gesture state machine (`detect_gestures`, `_tracking_tick`) -/

/-- `_reset_dwell`. -/
def reset_dwell (s : GState) : GState :=
  { s with dwell_reference_pos := none, dwell_start_time := none,
           dwell_triggered := false }

/-- Appending to the `deque(maxlen=8)` fist history. -/
def histPush (h : List Bool) (b : Bool) : List Bool :=
  let h' := h ++ [b]
  if 8 < h'.length then h'.drop (h'.length - 8) else h'

/-- The fist right-click trigger (lines 2124-2128): at least five history
entries, the two most recent false, any of the three before them true, and
the action cooldown elapsed. -/
def rightClickFires (cfg : Config) (h : List Bool) (now last_action : ℚ) : Bool :=
  if 5 ≤ h.length then
    let recent := h.drop (h.length - 5)
    !recent.getD 4 false && !recent.getD 3 false &&
      (recent.getD 0 false || recent.getD 1 false || recent.getD 2 false) &&
      decide (cfg.action_cooldown < now - last_action)
  else
    false

/-- The safety interlock branch of `detect_gestures` (lines 2069-2103):
release an active drag (clearing its anchors and the pinch timer), clear
the scroll reference and accumulator, reset hand tracking, smoothing and
dwell state, and return `safety_disabled` (or `disabled` when gaze
detection is off). -/
def safetyBranch (cfg : Config) (w : World) (flags : OSFlags) : StepOut :=
  let s := w.gs
  let dragRelease :=
    if s.is_dragging then
      ({ s with is_dragging := false, drag_start_hand_pos := none,
                drag_start_screen_pos := none, pinch_start_time := none },
       if flags.mouse_up_fails then ([] : List OSEvent) else [OSEvent.buttonUp])
    else
      (s, [])
  let s := dragRelease.1
  let s :=
    if s.scroll_reference_y ≠ none then
      { s with scroll_reference_y := none, scroll_accumulated := 0 }
    else s
  let s := { s with prev_hand_center := none, smoothed_screen_pos := none,
                    smoothed_pass2 := none, prev_raw_pos := none,
                    last_output_pos := none, dwell_reference_pos := none,
                    dwell_start_time := none, dwell_triggered := false }
  ⟨⟨s, w.mouse⟩, dragRelease.2,
    if cfg.gaze_detection_enabled then Action.safety_disabled else Action.disabled⟩

/-- Section 2 of `detect_gestures` (lines 2136-2249): pinch timing, drag
start, drag tracking, pinch waiting, drag end and quick click.  `Sum.inl`
is a fall-through to the scroll and cursor sections with the updated
world (those paths emit no events); `Sum.inr` is an early return. -/
def pinchSection (cfg : Config) (w : World) (hand_center : ℚ × ℚ)
    (is_pinched : Bool) (t : ℚ) (flags : OSFlags) : World ⊕ StepOut :=
  let s := w.gs
  if is_pinched then
    let pst := s.pinch_start_time.getD t
    let s := { s with pinch_start_time := some pst }
    let pinch_duration := t - pst
    if cfg.drag_threshold ≤ pinch_duration ∧ s.is_dragging = false then
      -- drag start try-block: position(), store anchors, mouseDown, flags
      if flags.position_fails then
        Sum.inr ⟨⟨s, w.mouse⟩, [], Action.drag_failed⟩
      else
        let s := { s with drag_start_hand_pos := some hand_center,
                          drag_start_screen_pos := some w.mouse }
        if flags.mouse_down_fails then
          Sum.inr ⟨⟨s, w.mouse⟩, [], Action.drag_failed⟩
        else
          let s := reset_dwell
            { s with is_dragging := true, last_action_time := t }
          Sum.inr ⟨⟨s, w.mouse⟩, [OSEvent.buttonDown], Action.drag_started⟩
    else if s.is_dragging = true ∧ s.drag_start_hand_pos.isSome = true ∧
        s.drag_start_screen_pos.isSome = true then
      -- drag tracking: absolute mapping when calibrated, delta fallback
      let dsh := s.drag_start_hand_pos.getD (0, 0)
      let dss := s.drag_start_screen_pos.getD (0, 0)
      match
        (match cfg.calibration with
         | some _ => map_to_screen cfg s hand_center.1 hand_center.2
         | none =>
           let screen_delta_x := (hand_center.1 - dsh.1) * cfg.screen_width * 3
           let screen_delta_y := (hand_center.2 - dsh.2) * cfg.screen_height * 3
           let nx := max cfg.screen_edge_margin
             (min (cfg.screen_width - cfg.screen_edge_margin) (dss.1 + screen_delta_x))
           let ny := max cfg.screen_edge_margin
             (min (cfg.screen_height - cfg.screen_edge_margin) (dss.2 + screen_delta_y))
           (s, nx, ny)) with
      | (s2, tx, ty) =>
        if flags.move_fails then
          Sum.inr ⟨⟨s2, w.mouse⟩, [], Action.dragging⟩
        else
          Sum.inr ⟨⟨s2, tx, ty⟩, [OSEvent.moveTo tx ty], Action.dragging⟩
    else
      let remaining := cfg.drag_threshold - pinch_duration
      if 0 < remaining then
        Sum.inr ⟨⟨s, w.mouse⟩, [], Action.pinch_waiting remaining⟩
      else
        Sum.inl ⟨s, w.mouse⟩
  else
    match s.pinch_start_time with
    | none => Sum.inl w
    | some pst =>
      let pinch_duration := t - pst
      if s.is_dragging then
        -- drag end try-block
        if flags.mouse_up_fails then
          Sum.inr ⟨⟨{ s with is_dragging := false }, w.mouse⟩, [],
            Action.drag_end_failed⟩
        else
          let s := reset_dwell
            { s with is_dragging := false, drag_start_hand_pos := none,
                     drag_start_screen_pos := none, pinch_start_time := none }
          Sum.inr ⟨⟨s, w.mouse⟩, [OSEvent.buttonUp], Action.drag_ended⟩
      else if pinch_duration < cfg.drag_threshold ∧
          cfg.action_cooldown < t - s.last_action_time then
        -- quick click try-block
        if flags.click_fails then
          Sum.inr ⟨⟨s, w.mouse⟩, [], Action.click_failed⟩
        else
          let s := reset_dwell
            { s with last_action_time := t, pinch_start_time := none }
          Sum.inr ⟨⟨s, w.mouse⟩, [OSEvent.click], Action.pinch_click⟩
      else
        Sum.inl ⟨{ s with pinch_start_time := none }, w.mouse⟩

/-- The pointer-move part of section 4 of `detect_gestures` (lines
2265-2291): absolute mapping through `map_to_screen` when calibrated,
otherwise the relative-delta fallback gated by the normalized dead zone.
Returns the updated gesture state, the OS cursor position after the tick
and the move events. -/
def cursorMove (cfg : Config) (w : World) (hand_center : ℚ × ℚ)
    (flags : OSFlags) : GState × (ℚ × ℚ) × List OSEvent :=
  let s := w.gs
  match cfg.calibration with
  | some _ =>
    match map_to_screen cfg s hand_center.1 hand_center.2 with
    | (s1, tx, ty) =>
      if flags.move_fails then
        (s1, w.mouse, ([] : List OSEvent))
      else
        (s1, (tx, ty), [OSEvent.moveTo tx ty])
  | none =>
    match s.prev_hand_center with
    | some ph =>
      let hand_delta_x := hand_center.1 - ph.1
      let hand_delta_y := hand_center.2 - ph.2
      let norm_dz := cfg.cursor_dead_zone /
        (max cfg.screen_width cfg.screen_height * cfg.sensitivity)
      if norm_dz < |hand_delta_x| ∨ norm_dz < |hand_delta_y| then
        if flags.move_fails then
          (s, w.mouse, [])
        else
          let nx := max cfg.screen_edge_margin
            (min (cfg.screen_width - cfg.screen_edge_margin)
              (w.mouse.1 + hand_delta_x * cfg.screen_width * cfg.sensitivity))
          let ny := max cfg.screen_edge_margin
            (min (cfg.screen_height - cfg.screen_edge_margin)
              (w.mouse.2 + hand_delta_y * cfg.screen_height * cfg.sensitivity))
          (s, (nx, ny), [OSEvent.moveTo nx ny])
      else
        (s, w.mouse, [])
    | none =>
      (s, w.mouse, [])

/-- Section 5 of `detect_gestures` (lines 2296-2321), the dwell engine:
re-anchor when the reference is unset or the cursor drifted beyond the
radius, otherwise click once the elapsed time reaches the duration and
the triggered flag is clear. -/
def dwellEngine (cfg : Config) (s : GState) (current_pos : ℚ × ℚ) (t : ℚ) :
    GState × List OSEvent × Action :=
  match s.dwell_reference_pos with
  | none =>
    ({ s with dwell_reference_pos := some current_pos,
              dwell_start_time := some t, dwell_triggered := false },
     [], Action.cursor_control)
  | some ref =>
    let dist := ratSqrt ((current_pos.1 - ref.1) ^ 2 + (current_pos.2 - ref.2) ^ 2)
    if cfg.dwell_click_radius < dist then
      ({ s with dwell_reference_pos := some current_pos,
                dwell_start_time := some t, dwell_triggered := false },
       [], Action.cursor_control)
    else if s.dwell_triggered = false ∧ s.dwell_start_time ≠ none then
      if cfg.dwell_click_duration ≤ t - s.dwell_start_time.getD t then
        ({ s with last_action_time := t, dwell_triggered := true,
                  dwell_start_time := some t },
         [OSEvent.click], Action.dwell_click)
      else
        (s, [], Action.cursor_control)
    else
      (s, [], Action.cursor_control)

/-- Sections 4 and 5 of `detect_gestures` (lines 2259-2334): cursor
control under the open-hand pose (via `cursorMove`), the dwell engine,
and the reset-tracking else branch. -/
def cursorSection (cfg : Config) (w : World) (lm : Landmarks)
    (hand_center : ℚ × ℚ) (is_pinched : Bool) (t : ℚ) (flags : OSFlags) :
    StepOut :=
  let s := w.gs
  if is_pinched = false ∧ s.is_dragging = false ∧ detect_open_hand lm then
    if s.scroll_reference_y ≠ none then
      ⟨w, [], Action.scroll_mode_active⟩
    else
      match cursorMove cfg w hand_center flags with
      | (s1, mouse, evs) =>
        let s := { s1 with prev_hand_center := some hand_center }
        if cfg.dwell_click_enabled then
          match dwellEngine cfg s mouse t with
          | (s3, cevs, act) => ⟨⟨s3, mouse⟩, evs ++ cevs, act⟩
        else
          ⟨⟨s, mouse⟩, evs, Action.cursor_control⟩
  else
    if s.is_dragging = false then
      ⟨⟨{ s with prev_hand_center := none, smoothed_screen_pos := none,
                 smoothed_pass2 := none, prev_raw_pos := none,
                 last_output_pos := none }, w.mouse⟩, [], Action.idle⟩
    else
      ⟨w, [], Action.idle⟩

/-- `detect_gestures`: safety interlock first, then fist right-click edge
detection, the pinch/drag/click section, two-finger scroll, and cursor
control with the dwell engine. -/
def detect_gestures (cfg : Config) (w : World) (lm : Landmarks)
    (looking : Bool) (t : ℚ) (flags : OSFlags) : StepOut :=
  if is_safe_to_control cfg looking = false then
    safetyBranch cfg w flags
  else
    let hand_center := calculate_hand_center lm
    let is_pinched := isPinched cfg lm
    let is_fist := detect_fist cfg lm
    let s := { w.gs with fist_history := histPush w.gs.fist_history is_fist }
    if rightClickFires cfg s.fist_history t s.last_action_time then
      ⟨⟨reset_dwell { s with last_action_time := t }, w.mouse⟩,
       [OSEvent.rightClick], Action.fist_right_click⟩
    else
      match pinchSection cfg ⟨s, w.mouse⟩ hand_center is_pinched t flags with
      | Sum.inr out => out
      | Sum.inl w =>
        match
          (if is_pinched = false ∧ w.gs.is_dragging = false then
            detect_two_finger_scroll cfg w.gs lm
          else
            (w.gs, [], false)) with
        | (s2, sevs, inScroll) =>
          if inScroll = true ∧ s2.scroll_reference_y ≠ none then
            ⟨⟨reset_dwell s2, w.mouse⟩, sevs, Action.two_finger_scroll⟩
          else
            match cursorSection cfg ⟨s2, w.mouse⟩ lm hand_center is_pinched t flags with
            | ⟨w2, evs2, act2⟩ => ⟨w2, sevs ++ evs2, act2⟩

/-- The hand-lost branch of `_tracking_tick` (lines 2534-2554): release an
active drag and reset every transient field. -/
def handLostTick (w : World) (flags : OSFlags) : StepOut :=
  let s := w.gs
  let dragRelease :=
    if s.is_dragging then
      ({ s with is_dragging := false },
       if flags.mouse_up_fails then ([] : List OSEvent) else [OSEvent.buttonUp])
    else
      (s, [])
  let s := dragRelease.1
  let s := { s with pinch_start_time := none, drag_start_hand_pos := none,
                    drag_start_screen_pos := none, prev_hand_center := none,
                    smoothed_screen_pos := none, smoothed_pass2 := none,
                    prev_raw_pos := none, last_output_pos := none,
                    scroll_reference_y := none, scroll_accumulated := 0,
                    scroll_exit_counter := 0 }
  ⟨⟨reset_dwell s, w.mouse⟩, dragRelease.2, Action.no_hand⟩

/-- One tick's external input: either no hand detected, or a hand frame
with the gaze verdict, the wall-clock time and the OS failure flags. -/
inductive TickInput where
  | noHand (flags : OSFlags) : TickInput
  | hand (lm : Landmarks) (looking : Bool) (t : ℚ) (flags : OSFlags) : TickInput

/-- Every OS call of this tick succeeds. -/
def TickInput.okFlags : TickInput → Bool
  | .noHand f => decide (f = OSFlags.ok)
  | .hand _ _ _ f => decide (f = OSFlags.ok)

/-- One tick of `_tracking_tick`. -/
def tick (cfg : Config) (w : World) : TickInput → StepOut
  | .noHand flags => handLostTick w flags
  | .hand lm looking t flags => detect_gestures cfg w lm looking t flags

/-- The per-tick outputs of running a list of tick inputs. -/
def runTrace (cfg : Config) (w : World) : List TickInput → List StepOut
  | [] => []
  | i :: rest =>
    let out := tick cfg w i
    out :: runTrace cfg out.w rest

/-- The world after running a list of tick inputs. -/
def runWorld (cfg : Config) (w : World) : List TickInput → World
  | [] => w
  | i :: rest => runWorld cfg (tick cfg w i).w rest

/-- The controller's world at startup: `__init__` gesture state plus an
arbitrary initial OS cursor position. -/
def initWorld (mouse : ℚ × ℚ) : World := ⟨initGState, mouse⟩

/-! ## Concrete inputs

Axis-aligned landmark layouts (all x-coordinates 1/2) so that every
distance the classifier computes is an exact rational, where `Rat.sqrt`
agrees with the real square root. -/

/-- A curled, non-fist, non-pinch, non-pose hand: every branch idles. -/
def neutralPose : Landmarks := fun i =>
  (1 / 2,
    match i with
    | 0 => 9 / 10
    | 3 => 8 / 10 | 4 => 88 / 100
    | 6 => 5 / 10 | 8 => 6 / 10
    | 10 => 5 / 10 | 12 => 6 / 10
    | 14 => 5 / 10 | 16 => 6 / 10
    | 18 => 5 / 10 | 20 => 6 / 10
    | _ => 1 / 2)

/-- A tight fist: all fingertips 0.05 from the palm proxy, no extended
finger. -/
def fistPose : Landmarks := fun i =>
  (1 / 2,
    match i with
    | 0 => 9 / 10
    | 3 => 55 / 100 | 4 => 55 / 100
    | 6 => 4 / 10 | 8 => 45 / 100
    | 10 => 4 / 10 | 12 => 55 / 100
    | 14 => 4 / 10 | 16 => 45 / 100
    | 18 => 4 / 10 | 20 => 55 / 100
    | _ => 1 / 2)

/-- Thumb tip exactly on the index tip: pinch distance 0, no extended
finger, not a fist shape. -/
def pinchPose : Landmarks := fun i =>
  (1 / 2,
    match i with
    | 0 => 9 / 10
    | 3 => 3 / 10 | 4 => 3 / 10
    | 6 => 25 / 100 | 8 => 3 / 10
    | 10 => 15 / 100 | 12 => 2 / 10
    | 14 => 15 / 100 | 16 => 2 / 10
    | 18 => 15 / 100 | 20 => 2 / 10
    | _ => 1 / 2)

/-- Two-finger scroll pose with the index and middle fingertips at
y = 0.3 + t. -/
def scrollPose (t : ℚ) : Landmarks := fun i =>
  (1 / 2,
    match i with
    | 0 => 9 / 10
    | 3 => 7 / 10 | 4 => 7 / 10
    | 6 => 8 / 10 | 8 => 3 / 10 + t
    | 10 => 8 / 10 | 12 => 3 / 10 + t
    | 14 => 5 / 10 | 16 => 85 / 100
    | 18 => 5 / 10 | 20 => 85 / 100
    | _ => 1 / 2)

/-- Open hand: index, middle and ring extended (three extended
fingers). -/
def openPose : Landmarks := fun i =>
  (1 / 2,
    match i with
    | 0 => 9 / 10
    | 3 => 7 / 10 | 4 => 7 / 10
    | 6 => 5 / 10 | 8 => 2 / 10
    | 10 => 5 / 10 | 12 => 2 / 10
    | 14 => 5 / 10 | 16 => 2 / 10
    | 18 => 5 / 10 | 20 => 8 / 10
    | _ => 1 / 2)

/-- `DEFAULT_CONFIG` of `main.py` as a `Config` (uncalibrated, gaze
detection on, dwell off). -/
def defaultCfg : Config where
  sensitivity := 5 / 2
  smoothing_factor := 13 / 20
  pinch_threshold := some (1 / 20)
  fist_threshold := some (3 / 50)
  drag_threshold := 2 / 5
  action_cooldown := 3 / 20
  scroll_dead_zone := 3 / 200
  scroll_threshold_val := 7 / 200
  scroll_amount := 2
  screen_edge_margin := 20
  cursor_dead_zone := 10
  calibration_margin := 1 / 20
  dwell_click_enabled := false
  dwell_click_radius := 30
  dwell_click_duration := 3 / 2
  gaze_detection_enabled := true
  calibration := none
  screen_width := 1920
  screen_height := 1080

/-! ## Run helpers for the claims -/

/-- Iterate `detect_two_finger_scroll` over a list of frames, collecting
the emitted scroll events. -/
def runScroll (cfg : Config) (s : GState) : List Landmarks → GState × List OSEvent
  | [] => (s, [])
  | lm :: rest =>
    let r := detect_two_finger_scroll cfg s lm
    let r' := runScroll cfg r.1 rest
    (r'.1, r.2.1 ++ r'.2)

/-- Smoothing state after feeding the same raw position `n` times into
`map_to_screen`. -/
def mapperState (cfg : Config) (p : ℚ × ℚ) (s : GState) : ℕ → GState
  | 0 => s
  | n + 1 => (map_to_screen cfg (mapperState cfg p s n) p.1 p.2).1

/-- The position emitted by feed number `n + 1` of the same raw position. -/
def mapperOut (cfg : Config) (p : ℚ × ℚ) (s : GState) (n : ℕ) : ℚ × ℚ :=
  (map_to_screen cfg (mapperState cfg p s n) p.1 p.2).2

/-- Number of `button_down` events in a trace. -/
def countDown (evs : List OSEvent) : ℕ :=
  evs.count OSEvent.buttonDown

/-- Number of `button_up` events in a trace. -/
def countUp (evs : List OSEvent) : ℕ :=
  evs.count OSEvent.buttonUp

/-- Whether the left button is held after a list of OS events, starting
from `held`. -/
def leftHeld (held : Bool) : List OSEvent → Bool
  | [] => held
  | e :: rest =>
    leftHeld
      (match e with
       | OSEvent.buttonDown => true
       | OSEvent.buttonUp => false
       | _ => held) rest

/-- One tick keeps button events paired with the `is_dragging`
transition: a `button_down` exactly on a false-to-true transition, a
`button_up` exactly on a true-to-false transition. -/
def tickPaired (cfg : Config) (w : World) (i : TickInput) : Bool :=
  let out := tick cfg w i
  decide (countDown out.events =
      if w.gs.is_dragging = false ∧ out.w.gs.is_dragging = true then 1 else 0) &&
  decide (countUp out.events =
      if w.gs.is_dragging = true ∧ out.w.gs.is_dragging = false then 1 else 0)

/-- `tickPaired` along a whole run. -/
def runPaired (cfg : Config) (w : World) : List TickInput → Bool
  | [] => true
  | i :: rest => tickPaired cfg w i && runPaired cfg (tick cfg w i).w rest

/-- Left-button held state threaded through the events of a whole run. -/
def runHeld (cfg : Config) (w : World) (held : Bool) : List TickInput → Bool
  | [] => held
  | i :: rest =>
    runHeld cfg (tick cfg w i).w (leftHeld held (tick cfg w i).events) rest

/-- The right-click trigger exactly as the specification words it: the
8-slot buffer holds the two most recent entries both false, at least one
of the six entries before them true, and the cooldown has elapsed. -/
def specFistTrigger (cfg : Config) (h : List Bool) (now last_action : ℚ) : Bool :=
  if 8 ≤ h.length then
    let r := h.drop (h.length - 8)
    !r.getD 7 false && !r.getD 6 false &&
      (r.getD 0 false || r.getD 1 false || r.getD 2 false ||
       r.getD 3 false || r.getD 4 false || r.getD 5 false) &&
      decide (cfg.action_cooldown < now - last_action)
  else
    false

/-! ## Concrete scenarios used by the counterexamples and witnesses -/

/-- Gaze detection on, otherwise defaults (C2 scenario). -/
def cfgGaze : Config := defaultCfg

/-- A pinch starts while the user looks at the screen, then the gaze is
lost with no drag active. -/
def inpsGaze : List TickInput :=
  [TickInput.hand pinchPose true 0 OSFlags.ok,
   TickInput.hand pinchPose false 1 OSFlags.ok]

/-- Config for the right-click-while-dragging scenario (C3): gaze off,
one-second drag threshold, half-second cooldown. -/
def cfgRC : Config :=
  { defaultCfg with
    pinch_threshold := some (1 / 100)
    fist_threshold := some (1 / 10)
    drag_threshold := 1
    action_cooldown := 1 / 2
    gaze_detection_enabled := false }

/-- A fist, then a pinch held long enough to start a drag; the fist
release edge is still inside the five-tick window when the cooldown
elapses during the drag. -/
def inpsRC : List TickInput :=
  [TickInput.hand fistPose true 0 OSFlags.ok,
   TickInput.hand pinchPose true (1 / 10) OSFlags.ok,
   TickInput.hand pinchPose true (2 / 10) OSFlags.ok,
   TickInput.hand pinchPose true (12 / 10) OSFlags.ok,
   TickInput.hand pinchPose true 2 OSFlags.ok]

/-- Config for the fist-history scenario (C4): pinch disabled, six-second
cooldown so no right-click fires inside the first seven ticks. -/
def cfgFist : Config :=
  { defaultCfg with
    pinch_threshold := none
    fist_threshold := some (1 / 10)
    action_cooldown := 6
    gaze_detection_enabled := false }

/-- One fist tick then seven neutral ticks; the last tick is far enough in
the future for the cooldown to have elapsed. -/
def inpsFist : List TickInput :=
  [TickInput.hand fistPose true 0 OSFlags.ok,
   TickInput.hand neutralPose true 1 OSFlags.ok,
   TickInput.hand neutralPose true 2 OSFlags.ok,
   TickInput.hand neutralPose true 3 OSFlags.ok,
   TickInput.hand neutralPose true 4 OSFlags.ok,
   TickInput.hand neutralPose true 5 OSFlags.ok,
   TickInput.hand neutralPose true 6 OSFlags.ok,
   TickInput.hand neutralPose true 100 OSFlags.ok]

/-- Scroll config (C5): dead zone 0.02, threshold 0.05. -/
def cfgScroll : Config :=
  { defaultCfg with scroll_dead_zone := 1 / 50, scroll_threshold_val := 1 / 20 }

/-- Ten frames in the scroll pose moving the two-finger Y monotonically
down by 0.015 per step (below the dead zone), 0.135 in total. -/
def scrollFrames : List Landmarks :=
  (List.range 10).map fun k => scrollPose (k * (3 / 200))

/-- Dwell config (C6): gestures disabled, gaze off, dwell on with a 30 px
radius and 1.5 s duration. -/
def cfgDwell : Config :=
  { defaultCfg with
    pinch_threshold := none
    fist_threshold := none
    gaze_detection_enabled := false
    dwell_click_enabled := true }

/-- Four stationary open-hand ticks spanning three full dwell
durations. -/
def inpsDwell : List TickInput :=
  [TickInput.hand openPose true 0 OSFlags.ok,
   TickInput.hand openPose true (3 / 2) OSFlags.ok,
   TickInput.hand openPose true 3 OSFlags.ok,
   TickInput.hand openPose true (9 / 2) OSFlags.ok]

/-- Pinch-click config (C7 and C1 witness): gaze off, one-second drag
threshold, short cooldown. -/
def cfgPinch : Config :=
  { defaultCfg with
    pinch_threshold := some (1 / 100)
    drag_threshold := 1
    action_cooldown := 1 / 10
    gaze_detection_enabled := false }

/-- The `pyautogui.click()` call raises this tick. -/
def failClick : OSFlags := { OSFlags.ok with click_fails := true }

/-- A short pinch whose release click fails at the OS. -/
def inpsClickFail : List TickInput :=
  [TickInput.hand pinchPose true 0 OSFlags.ok,
   TickInput.hand neutralPose true (1 / 2) failClick]

/-- The same two ticks with the click succeeding. -/
def inpsClickOk : List TickInput :=
  [TickInput.hand pinchPose true 0 OSFlags.ok,
   TickInput.hand neutralPose true (1 / 2) OSFlags.ok]

/-- Calibrated config (C9): bounds 0.2..0.8 with margin 0.05 on a
1920x1080 screen (edge margin 20 px). -/
def cfgCal : Config :=
  { defaultCfg with calibration := some ⟨1 / 5, 4 / 5, 1 / 5, 4 / 5, none, 1 / 20⟩ }

/-- Both personal thresholds disabled (C8 witness). -/
def cfgNoThresh : Config :=
  { defaultCfg with pinch_threshold := none, fist_threshold := none }

/-- Pinch-drag scenario: pinch held past drag threshold, then released, then hand lost (C1 witness). -/
def inpsDrag : List TickInput :=
  [TickInput.hand pinchPose true 0 OSFlags.ok,
   TickInput.hand pinchPose true 2 OSFlags.ok,
   TickInput.hand neutralPose true 3 OSFlags.ok,
   TickInput.noHand OSFlags.ok]

/-- World whose fist history is primed so the next two non-fist frames fire a right click (C1 witness). -/
def fistEdgeState : World :=
  ⟨{ initGState with fist_history := [true, false, false, false] }, (500, 500)⟩

/-- World with a pending pinch timer and no drag (C7 witness). -/
def wPend : World := ⟨{ initGState with pinch_start_time := some 0 }, (500, 500)⟩

/-- State mid-scroll: two-finger reference anchored at y = 3/10 (C5 witness). -/
def scrollActiveState : GState :=
  { initGState with scroll_reference_y := some (3 / 10) }

/-- Only the mouse-up OS call fails this tick. -/
def failUp : OSFlags := { OSFlags.ok with mouse_up_fails := true }

/-- The drag scenario of `inpsDrag`, but the release tick's mouse-up
raises at the OS (C1 counterexample). -/
def inpsDragFail : List TickInput :=
  [TickInput.hand pinchPose true 0 OSFlags.ok,
   TickInput.hand pinchPose true 2 OSFlags.ok,
   TickInput.hand neutralPose true 3 failUp]

/-! ## Helper lemmas -/

lemma isqrtAux_eq_sqrt (n : ℕ) :
    ∀ fuel lo hi, lo * lo ≤ n → n < (hi + 1) * (hi + 1) → lo ≤ hi →
      hi - lo ≤ fuel → isqrtAux n fuel lo hi = Nat.sqrt n := by
  intro fuel
  induction fuel with
  | zero =>
    intro lo hi hlo hhi hle hfuel
    have h : lo = hi := by omega
    subst h
    simp only [isqrtAux]
    exact Nat.le_antisymm (Nat.le_sqrt.2 hlo)
      (Nat.lt_succ_iff.1 (Nat.sqrt_lt.2 (by simpa [Nat.succ_mul, Nat.mul_succ] using hhi)))
  | succ fuel ih =>
    intro lo hi hlo hhi hle hfuel
    simp only [isqrtAux]
    by_cases hno : hi ≤ lo
    · have h : lo = hi := Nat.le_antisymm hle hno
      subst h
      simp only [if_pos hno]
      exact Nat.le_antisymm (Nat.le_sqrt.2 hlo)
        (Nat.lt_succ_iff.1 (Nat.sqrt_lt.2 (by simpa [Nat.succ_mul, Nat.mul_succ] using hhi)))
    · simp only [if_neg hno]
      have hlt : lo < hi := Nat.lt_of_not_le hno
      have hmid1 : lo + 1 ≤ (lo + hi + 1) / 2 := by omega
      have hmid2 : (lo + hi + 1) / 2 ≤ hi := by omega
      by_cases hmid : (lo + hi + 1) / 2 * ((lo + hi + 1) / 2) ≤ n
      · simp only [if_pos hmid]
        exact ih ((lo + hi + 1) / 2) hi hmid hhi hmid2 (by omega)
      · simp only [if_neg hmid]
        refine ih lo ((lo + hi + 1) / 2 - 1) hlo ?side1 (by omega) (by omega)
        have h1 : (lo + hi + 1) / 2 - 1 + 1 = (lo + hi + 1) / 2 := by omega
        rw [h1]
        exact Nat.lt_of_not_le hmid

/-- `sqrtNat` is `Nat.sqrt`. -/
lemma sqrtNat_eq_sqrt (n : ℕ) : sqrtNat n = Nat.sqrt n := by
  refine isqrtAux_eq_sqrt n n 0 n (by simp) ?bound (Nat.zero_le n) (by omega)
  calc n < n + 1 := Nat.lt_succ_self n
    _ ≤ (n + 1) * (n + 1) := Nat.le_mul_of_pos_left _ (Nat.succ_pos n)

/-- `ratSqrt` is exactly Mathlib's rational square root. -/
lemma ratSqrt_eq_sqrt (q : ℚ) : ratSqrt q = Rat.sqrt q := by
  simp [ratSqrt, Rat.sqrt, intSqrt, Int.sqrt, sqrtNat_eq_sqrt]

/-! ### Per-section characterizations of the tick -/

lemma map_to_screen_proj (cfg : Config) (s : GState) (x y : ℚ) :
    (map_to_screen cfg s x y).1.pinch_start_time = s.pinch_start_time ∧
    (map_to_screen cfg s x y).1.is_dragging = s.is_dragging ∧
    (map_to_screen cfg s x y).1.drag_start_hand_pos = s.drag_start_hand_pos ∧
    (map_to_screen cfg s x y).1.drag_start_screen_pos = s.drag_start_screen_pos ∧
    (map_to_screen cfg s x y).1.prev_hand_center = s.prev_hand_center ∧
    (map_to_screen cfg s x y).1.last_action_time = s.last_action_time ∧
    (map_to_screen cfg s x y).1.fist_history = s.fist_history ∧
    (map_to_screen cfg s x y).1.scroll_reference_y = s.scroll_reference_y ∧
    (map_to_screen cfg s x y).1.scroll_accumulated = s.scroll_accumulated ∧
    (map_to_screen cfg s x y).1.scroll_exit_counter = s.scroll_exit_counter ∧
    (map_to_screen cfg s x y).1.dwell_reference_pos = s.dwell_reference_pos ∧
    (map_to_screen cfg s x y).1.dwell_start_time = s.dwell_start_time ∧
    (map_to_screen cfg s x y).1.dwell_triggered = s.dwell_triggered := by
  simp only [map_to_screen]
  repeat' split
  all_goals simp

lemma leftHeld_append (b : Bool) (xs ys : List OSEvent) :
    leftHeld b (xs ++ ys) = leftHeld (leftHeld b xs) ys := by
  induction xs generalizing b with
  | nil => rfl
  | cons e rest ih => cases e <;> simp [leftHeld, ih]

set_option maxHeartbeats 1600000 in
lemma pinchSection_buttons (cfg : Config) (w : World) (hc : ℚ × ℚ) (ip : Bool)
    (t : ℚ) (flags : OSFlags) (out : StepOut)
    (h : pinchSection cfg w hc ip t flags = Sum.inr out)
    (hup : flags.mouse_up_fails = false) :
    countDown out.events =
      (if w.gs.is_dragging = false ∧ out.w.gs.is_dragging = true then 1 else 0) ∧
    countUp out.events =
      (if w.gs.is_dragging = true ∧ out.w.gs.is_dragging = false then 1 else 0) ∧
    leftHeld w.gs.is_dragging out.events = out.w.gs.is_dragging := by
  simp only [pinchSection] at h
  repeat' (first | (cases h) | (split at h))
  all_goals (repeat' split)
  all_goals simp_all [countDown, countUp, leftHeld, reset_dwell, map_to_screen_proj]

set_option maxHeartbeats 1600000 in
lemma pinchSection_inl (cfg : Config) (w : World) (hc : ℚ × ℚ) (ip : Bool)
    (t : ℚ) (flags : OSFlags) (w' : World)
    (h : pinchSection cfg w hc ip t flags = Sum.inl w') :
    w'.gs.is_dragging = w.gs.is_dragging ∧
    w'.gs.drag_start_hand_pos = w.gs.drag_start_hand_pos ∧
    w'.gs.drag_start_screen_pos = w.gs.drag_start_screen_pos ∧
    w'.gs.prev_hand_center = w.gs.prev_hand_center ∧
    w'.gs.last_action_time = w.gs.last_action_time ∧
    w'.gs.fist_history = w.gs.fist_history ∧
    w'.gs.scroll_reference_y = w.gs.scroll_reference_y ∧
    w'.gs.scroll_accumulated = w.gs.scroll_accumulated ∧
    w'.gs.scroll_exit_counter = w.gs.scroll_exit_counter ∧
    w'.gs.smoothed_screen_pos = w.gs.smoothed_screen_pos ∧
    w'.gs.smoothed_pass2 = w.gs.smoothed_pass2 ∧
    w'.gs.last_output_pos = w.gs.last_output_pos ∧
    w'.gs.prev_raw_pos = w.gs.prev_raw_pos ∧
    w'.gs.dwell_reference_pos = w.gs.dwell_reference_pos ∧
    w'.gs.dwell_start_time = w.gs.dwell_start_time ∧
    w'.gs.dwell_triggered = w.gs.dwell_triggered ∧
    w'.mouse = w.mouse := by
  simp only [pinchSection] at h
  repeat' (first | (cases h) | (split at h))
  all_goals simp_all

set_option maxHeartbeats 1600000 in
lemma pinchSection_misc (cfg : Config) (w : World) (hc : ℚ × ℚ) (ip : Bool)
    (t : ℚ) (flags : OSFlags) (out : StepOut)
    (h : pinchSection cfg w hc ip t flags = Sum.inr out) :
    out.w.gs.fist_history = w.gs.fist_history ∧
    out.act ≠ Action.fist_right_click ∧
    out.act ≠ Action.dwell_click ∧
    OSEvent.rightClick ∉ out.events ∧
    (∀ a : ℚ, OSEvent.scroll a ∉ out.events) ∧
    (OSEvent.click ∈ out.events →
      out.act = Action.pinch_click ∧ w.gs.is_dragging = false) ∧
    (out.act = Action.pinch_click → w.gs.is_dragging = false) := by
  simp only [pinchSection] at h
  repeat' (first | (cases h) | (split at h))
  all_goals (repeat' split)
  all_goals simp_all [reset_dwell, map_to_screen_proj]

lemma cursorMove_spec (cfg : Config) (w : World) (hc : ℚ × ℚ)
    (flags : OSFlags) (r : GState × (ℚ × ℚ) × List OSEvent)
    (h : cursorMove cfg w hc flags = r) :
    r.1.is_dragging = w.gs.is_dragging ∧
    r.1.fist_history = w.gs.fist_history ∧
    r.1.last_action_time = w.gs.last_action_time ∧
    r.1.dwell_reference_pos = w.gs.dwell_reference_pos ∧
    r.1.dwell_start_time = w.gs.dwell_start_time ∧
    r.1.dwell_triggered = w.gs.dwell_triggered ∧
    (∀ e ∈ r.2.2, ∃ a b, e = OSEvent.moveTo a b) := by
  simp only [cursorMove] at h
  repeat' (first | (cases h) | (split at h))
  all_goals (repeat' split)
  all_goals simp_all [map_to_screen_proj]

lemma dwellEngine_spec (cfg : Config) (s : GState) (p : ℚ × ℚ) (t : ℚ)
    (r : GState × List OSEvent × Action)
    (h : dwellEngine cfg s p t = r) :
    r.1.is_dragging = s.is_dragging ∧
    r.1.fist_history = s.fist_history ∧
    r.2.1 = (if r.2.2 = Action.dwell_click then [OSEvent.click] else []) ∧
    (r.2.2 = Action.cursor_control ∨ r.2.2 = Action.dwell_click) ∧
    (r.2.2 = Action.dwell_click →
      r.1.dwell_triggered = true ∧ r.1.dwell_start_time = some t) ∧
    (s.dwell_triggered = true → r.2.2 ≠ Action.dwell_click) := by
  simp only [dwellEngine] at h
  repeat' (first | (cases h) | (split at h))
  all_goals (repeat' split)
  all_goals simp_all

lemma moveOnly_facts (evs : List OSEvent)
    (h : ∀ e ∈ evs, ∃ a b, e = OSEvent.moveTo a b) :
    countDown evs = 0 ∧ countUp evs = 0 ∧ (∀ bb, leftHeld bb evs = bb) ∧
    OSEvent.rightClick ∉ evs ∧ OSEvent.click ∉ evs ∧
    (∀ a, OSEvent.scroll a ∉ evs) := by
  induction evs with
  | nil => simp [countDown, countUp, leftHeld]
  | cons e rest ih =>
    obtain ⟨a, b, rfl⟩ := h e (by simp)
    have hrest : ∀ e ∈ rest, ∃ a b, e = OSEvent.moveTo a b := by
      intro e he
      exact h e (by simp [he])
    obtain ⟨i1, i2, i3, i4, i5, i6⟩ := ih hrest
    refine ⟨?f1, ?f2, ?f3, ?f4, ?f5, ?f6⟩ <;>
      simp_all [countDown, countUp, leftHeld]

set_option maxHeartbeats 1600000 in
lemma cursorSection_spec (cfg : Config) (w : World) (lm : Landmarks)
    (hc : ℚ × ℚ) (ip : Bool) (t : ℚ) (flags : OSFlags) (out : StepOut)
    (h : cursorSection cfg w lm hc ip t flags = out) :
    out.w.gs.is_dragging = w.gs.is_dragging ∧
    out.w.gs.fist_history = w.gs.fist_history ∧
    countDown out.events = 0 ∧
    countUp out.events = 0 ∧
    (∀ b, leftHeld b out.events = b) ∧
    OSEvent.rightClick ∉ out.events ∧
    (∀ a : ℚ, OSEvent.scroll a ∉ out.events) ∧
    out.act ≠ Action.fist_right_click ∧
    (OSEvent.click ∈ out.events →
      out.act = Action.dwell_click ∧ w.gs.is_dragging = false) ∧
    (out.act = Action.dwell_click →
      w.gs.is_dragging = false ∧
      out.w.gs.dwell_triggered = true ∧ out.w.gs.dwell_start_time = some t) ∧
    (w.gs.dwell_triggered = true → out.act ≠ Action.dwell_click) := by
  rcases hcm : cursorMove cfg w hc flags with ⟨s1, mouse, evs⟩
  obtain ⟨hm1, hm2, hm3, hm4, hm5, hm6, hm7⟩ :=
    cursorMove_spec cfg w hc flags _ hcm
  obtain ⟨e1, e2, e3, e4, e5, e6⟩ := moveOnly_facts evs hm7
  rcases hde : dwellEngine cfg { s1 with prev_hand_center := some hc } mouse t
    with ⟨s3, cevs, act⟩
  obtain ⟨hd1, hd2, hd3, hd4, hd5, hd6⟩ :=
    dwellEngine_spec cfg _ mouse t _ hde
  subst h
  simp only [cursorSection, hcm, hde]
  repeat' split
  all_goals
    by_cases hact : act = Action.dwell_click <;>
      simp_all [countDown, countUp, leftHeld, leftHeld_append, List.count_append]

set_option maxHeartbeats 1600000 in
lemma scroll_spec (cfg : Config) (s : GState) (lm : Landmarks)
    (r : GState × List OSEvent × Bool)
    (h : detect_two_finger_scroll cfg s lm = r) :
    r.1.is_dragging = s.is_dragging ∧
    r.1.fist_history = s.fist_history ∧
    r.1.last_action_time = s.last_action_time ∧
    r.1.pinch_start_time = s.pinch_start_time ∧
    r.1.dwell_reference_pos = s.dwell_reference_pos ∧
    r.1.dwell_start_time = s.dwell_start_time ∧
    r.1.dwell_triggered = s.dwell_triggered ∧
    countDown r.2.1 = 0 ∧
    countUp r.2.1 = 0 ∧
    (∀ b, leftHeld b r.2.1 = b) ∧
    OSEvent.rightClick ∉ r.2.1 ∧
    OSEvent.click ∉ r.2.1 := by
  simp only [detect_two_finger_scroll] at h
  repeat' (first | (cases h) | (split at h))
  all_goals (repeat' split)
  all_goals simp_all [countDown, countUp, leftHeld]

set_option maxHeartbeats 1600000 in
lemma safetyBranch_spec (cfg : Config) (w : World) (flags : OSFlags)
    (out : StepOut) (h : safetyBranch cfg w flags = out) :
    out.w.mouse = w.mouse ∧
    out.act =
      (if cfg.gaze_detection_enabled = true then Action.safety_disabled
       else Action.disabled) ∧
    out.events =
      (if w.gs.is_dragging = true ∧ flags.mouse_up_fails = false then
        [OSEvent.buttonUp] else []) ∧
    out.w.gs.is_dragging = false ∧
    out.w.gs.drag_start_hand_pos =
      (if w.gs.is_dragging = true then none else w.gs.drag_start_hand_pos) ∧
    out.w.gs.drag_start_screen_pos =
      (if w.gs.is_dragging = true then none else w.gs.drag_start_screen_pos) ∧
    out.w.gs.pinch_start_time =
      (if w.gs.is_dragging = true then none else w.gs.pinch_start_time) ∧
    out.w.gs.scroll_reference_y = none ∧
    out.w.gs.scroll_accumulated =
      (if w.gs.scroll_reference_y = none then w.gs.scroll_accumulated else 0) ∧
    out.w.gs.scroll_exit_counter = w.gs.scroll_exit_counter ∧
    out.w.gs.prev_hand_center = none ∧
    out.w.gs.smoothed_screen_pos = none ∧
    out.w.gs.smoothed_pass2 = none ∧
    out.w.gs.prev_raw_pos = none ∧
    out.w.gs.last_output_pos = none ∧
    out.w.gs.dwell_reference_pos = none ∧
    out.w.gs.dwell_start_time = none ∧
    out.w.gs.dwell_triggered = false ∧
    out.w.gs.fist_history = w.gs.fist_history ∧
    out.w.gs.last_action_time = w.gs.last_action_time := by
  simp only [safetyBranch] at h
  repeat' (first | (cases h) | (split at h))
  all_goals (repeat' split)
  all_goals simp_all

set_option maxHeartbeats 1600000 in
lemma handLost_spec (w : World) (flags : OSFlags) (out : StepOut)
    (h : handLostTick w flags = out) :
    out.w.mouse = w.mouse ∧
    out.act = Action.no_hand ∧
    out.events =
      (if w.gs.is_dragging = true ∧ flags.mouse_up_fails = false then
        [OSEvent.buttonUp] else []) ∧
    out.w.gs.is_dragging = false ∧
    out.w.gs.pinch_start_time = none ∧
    out.w.gs.fist_history = w.gs.fist_history ∧
    out.w.gs.last_action_time = w.gs.last_action_time := by
  simp only [handLostTick] at h
  repeat' (first | (cases h) | (split at h))
  all_goals (repeat' split)
  all_goals simp_all [reset_dwell]

set_option maxHeartbeats 3200000 in
/-- Master characterization of one `detect_gestures` tick, collecting the
per-section facts the claim theorems need: button pairing (when the
`mouseUp` call succeeds), fist-history push and right-click trigger,
click/scroll exclusion, and the dwell trigger flag discipline. -/
lemma detect_gestures_spec (cfg : Config) (w : World) (lm : Landmarks)
    (looking : Bool) (t : ℚ) (flags : OSFlags) (out : StepOut)
    (h : detect_gestures cfg w lm looking t flags = out) :
    (flags.mouse_up_fails = false →
      countDown out.events =
        (if w.gs.is_dragging = false ∧ out.w.gs.is_dragging = true then 1 else 0) ∧
      countUp out.events =
        (if w.gs.is_dragging = true ∧ out.w.gs.is_dragging = false then 1 else 0) ∧
      leftHeld w.gs.is_dragging out.events = out.w.gs.is_dragging) ∧
    (is_safe_to_control cfg looking = true →
      out.w.gs.fist_history = histPush w.gs.fist_history (detect_fist cfg lm) ∧
      (out.act = Action.fist_right_click ↔
        rightClickFires cfg (histPush w.gs.fist_history (detect_fist cfg lm)) t
          w.gs.last_action_time = true) ∧
      (OSEvent.rightClick ∈ out.events ↔ out.act = Action.fist_right_click)) ∧
    (OSEvent.click ∈ out.events → w.gs.is_dragging = false) ∧
    (∀ a : ℚ, OSEvent.scroll a ∈ out.events →
      w.gs.is_dragging = false ∧ isPinched cfg lm = false) ∧
    (out.act = Action.dwell_click →
      out.w.gs.dwell_triggered = true ∧ out.w.gs.dwell_start_time = some t) ∧
    (w.gs.dwell_triggered = true → out.act ≠ Action.dwell_click) := by
  by_cases hsafe : is_safe_to_control cfg looking = false
  · simp only [detect_gestures, if_pos hsafe] at h
    obtain ⟨q1, q2, q3, q4, q5, q6, q7, q8, q9, q10, q11, q12, q13, q14,
      q15, q16, q17, q18, q19, q20⟩ := safetyBranch_spec cfg w flags out h
    refine ⟨?b1, ?b2, ?b3, ?b4, ?b5, ?b6⟩
    case b1 =>
      intro hup
      cases hwd : w.gs.is_dragging <;>
        simp_all [countDown, countUp, leftHeld]
    case b2 =>
      intro htrue
      rw [htrue] at hsafe
      cases hsafe
    case b3 =>
      intro hclick
      rw [q3] at hclick
      by_cases hwd : w.gs.is_dragging = true <;> simp_all
    case b4 =>
      intro a ha
      rw [q3] at ha
      by_cases hwd : w.gs.is_dragging = true <;> simp_all
    case b5 =>
      intro hact
      rw [q2] at hact
      by_cases hg : cfg.gaze_detection_enabled = true <;> simp_all
    case b6 =>
      intro _
      rw [q2]
      by_cases hg : cfg.gaze_detection_enabled = true <;> simp_all
  · have hsafe2 : is_safe_to_control cfg looking = true := by
      simpa using hsafe
    simp only [detect_gestures, hsafe2, Bool.true_eq_false, if_false] at h
    by_cases hrc : rightClickFires cfg
        (histPush w.gs.fist_history (detect_fist cfg lm)) t
        w.gs.last_action_time = true
    · simp only [hrc, if_true] at h
      subst h
      simp_all [countDown, countUp, leftHeld, reset_dwell, histPush]
    · simp only [hrc, if_false, Bool.false_eq_true] at h
      rcases hps : pinchSection cfg
          ⟨{ w.gs with fist_history := histPush w.gs.fist_history (detect_fist cfg lm) }, w.mouse⟩
          (calculate_hand_center lm) (isPinched cfg lm) t flags with w2 | out2
      · -- fall-through to scroll and cursor control
        rw [hps] at h
        obtain ⟨p1, p2, p3, p4, p5, p6, p7, p8, p9, p10, p11, p12, p13,
          p14, p15, p16, p17⟩ := pinchSection_inl cfg _ _ _ _ _ _ hps
        by_cases hguard : isPinched cfg lm = false ∧ w2.gs.is_dragging = false
        · simp only [if_pos hguard] at h
          rcases hr : detect_two_finger_scroll cfg w2.gs lm with ⟨s2, sevs, inScroll⟩
          rw [hr] at h
          obtain ⟨r1, r2, r3, r4, r5, r6, r7, r8, r9, r10, r11, r12⟩ :=
            scroll_spec cfg w2.gs lm _ hr
          by_cases htf : inScroll = true ∧ s2.scroll_reference_y ≠ none
          · simp only [if_pos htf] at h
            subst h
            refine ⟨?d1, ?d2, ?d3, ?d4, ?d5, ?d6⟩
            case d1 =>
              intro hup
              cases hwd : w.gs.is_dragging <;>
                simp_all [countDown, countUp, reset_dwell]
            case d2 =>
              intro _
              refine ⟨by simp_all [reset_dwell, histPush], ?diff1, ?diff2⟩
              case diff1 => simp_all
              case diff2 => simp_all
            case d3 =>
              intro hclick
              exact absurd (by simpa using hclick) r12
            case d4 =>
              intro a _
              refine ⟨by simp_all, hguard.1⟩
            case d5 =>
              intro hact
              simp at hact
            case d6 =>
              intro _
              simp
          · simp only [if_neg htf] at h
            rcases hcs : cursorSection cfg ⟨s2, w2.mouse⟩ lm
                (calculate_hand_center lm) (isPinched cfg lm) t flags
              with ⟨w3, evs2, act3⟩
            rw [hcs] at h
            subst h
            obtain ⟨c1, c2, c3, c4, c5, c6, c7, c8, c9, c10, c11⟩ :=
              cursorSection_spec cfg _ _ _ _ _ _ _ hcs
            refine ⟨?e1, ?e2, ?e3, ?e4, ?e5, ?e6⟩
            case e1 =>
              intro hup
              cases hwd : w.gs.is_dragging <;>
                simp_all [countDown, countUp, List.count_append, leftHeld_append]
            case e2 =>
              intro _
              refine ⟨by simp_all, ?eiff1, ?eiff2⟩
              case eiff1 =>
                constructor
                · intro hact
                  exact absurd (by simpa using hact) c8
                · intro hfires
                  exact absurd hfires hrc
              case eiff2 =>
                constructor
                · intro hmem
                  rcases List.mem_append.1 (by simpa using hmem) with hin | hin
                  · exact absurd hin r11
                  · exact absurd hin c6
                · intro hact
                  exact absurd (by simpa using hact) c8
            case e3 =>
              intro hclick
              rcases List.mem_append.1 (by simpa using hclick) with hin | hin
              · exact absurd hin r12
              · simp_all
            case e4 =>
              intro a ha
              rcases List.mem_append.1 (by simpa using ha) with hin | hin
              · refine ⟨by simp_all, hguard.1⟩
              · exact absurd hin (c7 a)
            case e5 =>
              intro hact
              have := c10 (by simpa using hact)
              simp_all
            case e6 =>
              intro htrig
              have hin : (⟨s2, w2.mouse⟩ : World).gs.dwell_triggered = true := by
                simp_all
              intro hact
              exact c11 hin (by simpa using hact)
        · simp only [if_neg hguard] at h
          simp only [Bool.false_eq_true, false_and, if_false, ne_eq] at h
          rcases hcs : cursorSection cfg ⟨w2.gs, w2.mouse⟩ lm
              (calculate_hand_center lm) (isPinched cfg lm) t flags
            with ⟨w3, evs2, act3⟩
          rw [hcs] at h
          subst h
          obtain ⟨c1, c2, c3, c4, c5, c6, c7, c8, c9, c10, c11⟩ :=
            cursorSection_spec cfg _ _ _ _ _ _ _ hcs
          refine ⟨?f1, ?f2, ?f3, ?f4, ?f5, ?f6⟩
          case f1 =>
            intro hup
            cases hwd : w.gs.is_dragging <;>
              simp_all [countDown, countUp, List.count_append, leftHeld_append]
          case f2 =>
            intro _
            refine ⟨by simp_all, ?fiff1, ?fiff2⟩
            case fiff1 =>
              constructor
              · intro hact
                exact absurd (by simpa using hact) c8
              · intro hfires
                exact absurd hfires hrc
            case fiff2 =>
              constructor
              · intro hmem
                exact absurd (by simpa using hmem) c6
              · intro hact
                exact absurd (by simpa using hact) c8
          case f3 =>
            intro hclick
            simp_all
          case f4 =>
            intro a ha
            exact absurd (by simpa using ha) (c7 a)
          case f5 =>
            intro hact
            have := c10 (by simpa using hact)
            simp_all
          case f6 =>
            intro htrig
            have hin : (⟨w2.gs, w2.mouse⟩ : World).gs.dwell_triggered = true := by
              simp_all
            intro hact
            exact c11 hin (by simpa using hact)
      · -- early return from the pinch section
        rw [hps] at h
        subst h
        obtain ⟨m1, m2, m3, m4, m5, m6, m7⟩ := pinchSection_misc cfg _ _ _ _ _ _ hps
        refine ⟨?c1, ?c2, ?c3, ?c4, ?c5, ?c6⟩
        case c1 =>
          intro hup
          have := pinchSection_buttons cfg _ _ _ _ _ _ hps hup
          simpa using this
        case c2 =>
          intro _
          refine ⟨by simpa using m1, ?iff1, ?iff2⟩
          case iff1 =>
            constructor
            · intro hact
              exact absurd hact m2
            · intro hfires
              exact absurd hfires hrc
          case iff2 =>
            constructor
            · intro hmem
              exact absurd hmem m4
            · intro hact
              exact absurd hact m2
        case c3 =>
          intro hclick
          simpa using (m6 hclick).2
        case c4 =>
          intro a ha
          exact absurd ha (m5 a)
        case c5 =>
          intro hact
          exact absurd hact m3
        case c6 =>
          intro _
          exact m3

/-! ## C8: disabled thresholds never fire -/

/-- C8: for every frame, a null `pinch_threshold` makes `is_pinched`
false regardless of the measured thumb-index distance, and a null
`fist_threshold` makes `detect_fist` false regardless of the measured
fingertip-to-palm distances and extended-finger count. -/
theorem C8_disabled_thresholds (cfg : Config) (lm : Landmarks) :
    (cfg.pinch_threshold = none → isPinched cfg lm = false) ∧
    (cfg.fist_threshold = none → detect_fist cfg lm = false) := by
  constructor <;> intro h <;> simp [isPinched, detect_fist, h]

/-- C8 witness: with both thresholds disabled, a frame whose thumb tip
sits exactly on the index tip (distance 0) is not pinched, and a tight
fist frame is not a fist. -/
theorem C8_disabled_thresholds_witness :
    calculate_distance (pinchPose 4) (pinchPose 8) = 0 ∧
    isPinched cfgNoThresh pinchPose = false ∧
    detect_fist cfgNoThresh fistPose = false :=
  ⟨by with_unfolding_all decide,
   (C8_disabled_thresholds cfgNoThresh pinchPose).1 rfl,
   (C8_disabled_thresholds cfgNoThresh fistPose).2 rfl⟩

/-! ## C10: the stored calibration margin never influences the mapper -/

/-- C10: `map_to_screen` never reads the `calibration_margin` field stored
inside the `Calibration` record — two controller states identical except
for that field produce identical results on every input (the box expansion
reads the session `Config.calibration_margin` instead). -/
theorem C10_margin_noninterference (cfg : Config) (cal : Calibration)
    (m : ℚ) (s : GState) (x y : ℚ) :
    map_to_screen { cfg with calibration := some cal } s x y =
      map_to_screen
        { cfg with calibration := some { cal with calibration_margin := m } } s x y :=
  rfl

/-! ## Counterexamples to the claims the code refutes -/

/-- C2 counterexample: a pinch is pending (timer set at time 0, no drag)
when the gaze is lost; the safety tick answers `safety_disabled` but
leaves `pinch_start_time` set, although the claim says the pinch timer is
cleared regardless of whether a drag was active. -/
theorem C2_counterexample :
    (runTrace cfgGaze (initWorld (500, 500)) inpsGaze).map StepOut.act =
      [Action.pinch_waiting (2 / 5), Action.safety_disabled] ∧
    (runWorld cfgGaze (initWorld (500, 500)) inpsGaze).gs.is_dragging = false ∧
    (runWorld cfgGaze (initWorld (500, 500)) inpsGaze).gs.pinch_start_time = some 0 := by
  with_unfolding_all decide

/-- C3 counterexample: in a reachable state with an active drag, the fist
history edge plus an elapsed cooldown fire a right-click on a tick where
`is_dragging` is true before and after — a click and a drag are active in
the same tick. -/
theorem C3_counterexample :
    (runWorld cfgRC (initWorld (500, 500)) (List.take 4 inpsRC)).gs.is_dragging = true ∧
    (tick cfgRC (runWorld cfgRC (initWorld (500, 500)) (List.take 4 inpsRC))
        (TickInput.hand pinchPose true 2 OSFlags.ok)).events = [OSEvent.rightClick] ∧
    (tick cfgRC (runWorld cfgRC (initWorld (500, 500)) (List.take 4 inpsRC))
        (TickInput.hand pinchPose true 2 OSFlags.ok)).act = Action.fist_right_click ∧
    (tick cfgRC (runWorld cfgRC (initWorld (500, 500)) (List.take 4 inpsRC))
        (TickInput.hand pinchPose true 2 OSFlags.ok)).w.gs.is_dragging = true := by
  with_unfolding_all decide

set_option maxRecDepth 100000 in
/-- C4 counterexample: after one fist tick and seven non-fist ticks the
8-slot buffer is `[T,F,F,F,F,F,F,F]` and the cooldown has elapsed, so the
claimed trigger condition (two most recent false, one of the six before
them true) holds — yet the code, which only inspects the five most recent
entries, emits nothing and idles on every tick. -/
theorem C4_counterexample :
    specFistTrigger cfgFist
        (runWorld cfgFist (initWorld (500, 500)) inpsFist).gs.fist_history 100
        (runWorld cfgFist (initWorld (500, 500)) (List.take 7 inpsFist)).gs.last_action_time
      = true ∧
    (runTrace cfgFist (initWorld (500, 500)) inpsFist).map StepOut.act =
      [Action.idle, Action.idle, Action.idle, Action.idle,
       Action.idle, Action.idle, Action.idle, Action.idle] ∧
    ((runTrace cfgFist (initWorld (500, 500)) inpsFist).map StepOut.events).flatten = [] := by
  with_unfolding_all decide

/-- C5 counterexample: ten scroll-pose frames moving the two-finger Y
monotonically by 0.015 per step (below the 0.02 dead zone) for a total of
0.135 fire three scroll events, not `floor(0.135 / 0.05) = 2` as the claim
states — each tick accumulates the whole movement since the reference, not
the per-step delta. -/
theorem C5_counterexample :
    ((3 : ℚ) / 200 < cfgScroll.scroll_dead_zone) ∧
    (cfgScroll.scroll_threshold_val < (27 : ℚ) / 200) ∧
    Int.floor ((27 : ℚ) / 200 / cfgScroll.scroll_threshold_val) = 2 ∧
    (runScroll cfgScroll initGState scrollFrames).2 =
      [OSEvent.scroll (-2), OSEvent.scroll (-2), OSEvent.scroll (-2)] := by
  with_unfolding_all decide

set_option maxRecDepth 100000 in
/-- C6 counterexample: with dwell enabled (radius 30 px, duration 1.5 s)
and the cursor pinned at (500, 500) for three full durations, exactly one
dwell click fires; the ticks one and two full durations after the first
click return `cursor_control`, not a second `dwell_click` as the claim
predicts. -/
theorem C6_counterexample :
    (runTrace cfgDwell (initWorld (500, 500)) inpsDwell).map StepOut.act =
      [Action.cursor_control, Action.dwell_click,
       Action.cursor_control, Action.cursor_control] ∧
    ((runTrace cfgDwell (initWorld (500, 500)) inpsDwell).map StepOut.events).flatten.count
      OSEvent.click = 1 ∧
    (runWorld cfgDwell (initWorld (500, 500)) inpsDwell).mouse = (500, 500) := by
  with_unfolding_all decide

/-- C7 counterexample: a short pinch is released with the cooldown
elapsed; when `pyautogui.click()` raises, the tick returns `click_failed`
but leaves `last_action_time` and the pinch timer untouched, whereas the
identical ticks with the call succeeding update `last_action_time` to 0.5
and clear the timer — the state does not advance as if the command had
succeeded. -/
theorem C7_counterexample :
    (runTrace cfgPinch (initWorld (500, 500)) inpsClickFail).map StepOut.act =
      [Action.pinch_waiting 1, Action.click_failed] ∧
    (runWorld cfgPinch (initWorld (500, 500)) inpsClickFail).gs.pinch_start_time = some 0 ∧
    (runWorld cfgPinch (initWorld (500, 500)) inpsClickFail).gs.last_action_time = 0 ∧
    (runTrace cfgPinch (initWorld (500, 500)) inpsClickOk).map StepOut.act =
      [Action.pinch_waiting 1, Action.pinch_click] ∧
    (runWorld cfgPinch (initWorld (500, 500)) inpsClickOk).gs.pinch_start_time = none ∧
    (runWorld cfgPinch (initWorld (500, 500)) inpsClickOk).gs.last_action_time = 1 / 2 := by
  with_unfolding_all decide

set_option maxRecDepth 100000 in
/-- C9 counterexample: under a 0.2..0.8 calibration with margin 0.05 on a
1920x1080 screen (edge margin 20 px), the hand position 0.17 maps through
calibration to raw (0, 0); feeding it 50 times emits (20, 20) — the
edge-margin clamp keeps the output 20 px away from the calibration-mapped
raw position, far beyond the claimed 0.5 px. -/
theorem C9_counterexample :
    mapRaw cfgCal (17 / 100) (17 / 100) = (0, 0) ∧
    mapperOut cfgCal (17 / 100, 17 / 100) initGState 49 = (20, 20) ∧
    mapperOut cfgCal (17 / 100, 17 / 100) initGState 50 = (20, 20) ∧
    ¬ (|(20 : ℚ) - 0| ≤ 1 / 2) := by
  with_unfolding_all decide

open AirPoint

lemma tick_button_spec (cfg : Config) (w : World) (i : TickInput)
    (hok : i.okFlags = true) :
    countDown (tick cfg w i).events =
      (if w.gs.is_dragging = false ∧ (tick cfg w i).w.gs.is_dragging = true
       then 1 else 0) ∧
    countUp (tick cfg w i).events =
      (if w.gs.is_dragging = true ∧ (tick cfg w i).w.gs.is_dragging = false
       then 1 else 0) ∧
    leftHeld w.gs.is_dragging (tick cfg w i).events =
      (tick cfg w i).w.gs.is_dragging := by
  cases i with
  | noHand flags =>
    have hf : flags = OSFlags.ok := by
      simpa [TickInput.okFlags] using hok
    subst hf
    obtain ⟨q1, q2, q3, q4, q5, q6, q7⟩ := handLost_spec w OSFlags.ok _ rfl
    cases hwd : w.gs.is_dragging <;>
      simp_all [tick, countDown, countUp, leftHeld, OSFlags.ok]
  | hand lm looking t flags =>
    have hf : flags = OSFlags.ok := by
      simpa [TickInput.okFlags] using hok
    subst hf
    have hspec := detect_gestures_spec cfg w lm looking t OSFlags.ok _ rfl
    have hbtn := hspec.1 rfl
    simpa [tick] using hbtn

/-! ## C1: button events stay paired with the drag flag -/

lemma runPaired_of_ok (cfg : Config) :
    ∀ (inps : List TickInput) (w : World),
      (∀ i ∈ inps, i.okFlags = true) →
      runPaired cfg w inps = true ∧
      runHeld cfg w w.gs.is_dragging inps =
        (runWorld cfg w inps).gs.is_dragging := by
  intro inps
  induction inps with
  | nil =>
    intro w _
    simp [runPaired, runHeld, runWorld]
  | cons i rest ih =>
    intro w h
    have hok : i.okFlags = true := h i (by simp)
    have hrest : ∀ j ∈ rest, j.okFlags = true := fun j hj => h j (by simp [hj])
    obtain ⟨t1, t2, t3⟩ := tick_button_spec cfg w i hok
    obtain ⟨ih1, ih2⟩ := ih (tick cfg w i).w hrest
    constructor
    · simp [runPaired, tickPaired, t1, t2, ih1]
    · simp only [runHeld, runWorld, t3, ih2]

set_option maxRecDepth 100000 in
/-- C1 counterexample: when the drag-end `mouseUp` raises, the tick
clears `is_dragging` without emitting the `buttonUp`, so the run ends
with the button held while no drag is tracked and the pairing check
fails — the claim's unqualified "for every tick sequence" is false once
OS failures are possible. -/
theorem C1_counterexample :
    runPaired cfgPinch (initWorld (500, 500)) inpsDragFail = false ∧
    (runWorld cfgPinch (initWorld (500, 500)) inpsDragFail).gs.is_dragging = false ∧
    runHeld cfgPinch (initWorld (500, 500)) false inpsDragFail = true := by
  with_unfolding_all decide

/-- C1: over any input trace starting from a fresh controller in which no
OS pointer call fails, every `buttonDown` is matched — `runPaired` checks
that downs and ups strictly alternate starting with a down and that the
trace ends released iff `is_dragging` ends false — and at every
intermediate tick the cumulative button parity equals the `is_dragging`
flag. -/
theorem C1_button_pairing (cfg : Config) (mouse : ℚ × ℚ)
    (inps : List TickInput) (hok : ∀ i ∈ inps, i.okFlags = true) :
    runPaired cfg (initWorld mouse) inps = true ∧
    runHeld cfg (initWorld mouse) false inps =
      (runWorld cfg (initWorld mouse) inps).gs.is_dragging := by
  have h := runPaired_of_ok cfg inps (initWorld mouse) hok
  simpa [initWorld, initGState] using h

/-- C1 witness: a pinch held past the drag threshold, released, then the
hand lost, produces a properly paired down/up trace. -/
theorem C1_button_pairing_witness :
    (∀ i ∈ inpsDrag, TickInput.okFlags i = true) ∧
    runPaired cfgPinch (initWorld (500, 500)) inpsDrag = true ∧
    runHeld cfgPinch (initWorld (500, 500)) false inpsDrag =
      (runWorld cfgPinch (initWorld (500, 500)) inpsDrag).gs.is_dragging :=
  ⟨by with_unfolding_all decide,
   (C1_button_pairing cfgPinch (500, 500) inpsDrag (by with_unfolding_all decide)).1,
   (C1_button_pairing cfgPinch (500, 500) inpsDrag (by with_unfolding_all decide)).2⟩

/-! ## C2: the safety interlock's actual resets -/

/-- C2 (amended): on a safety-denied tick the code releases an active drag
with a `buttonUp`, clears the scroll reference (and the accumulator when a
reference was set), resets hand-tracking, smoothing and dwell state,
returns `safety_disabled` and does no gesture processing; but the pinch
timer is cleared only when a drag was active, and the fist history,
cooldown clock and scroll exit-grace counter survive untouched. -/
theorem C2_safety_interlock (cfg : Config) (w : World) (lm : Landmarks)
    (t : ℚ) (flags : OSFlags) (out : StepOut)
    (hg : cfg.gaze_detection_enabled = true)
    (hup : flags.mouse_up_fails = false)
    (hout : detect_gestures cfg w lm false t flags = out) :
    out.act = Action.safety_disabled ∧
    out.events = (if w.gs.is_dragging = true then [OSEvent.buttonUp] else []) ∧
    out.w.gs.is_dragging = false ∧
    out.w.gs.pinch_start_time =
      (if w.gs.is_dragging = true then none else w.gs.pinch_start_time) ∧
    out.w.gs.scroll_reference_y = none ∧
    (w.gs.scroll_reference_y ≠ none → out.w.gs.scroll_accumulated = 0) ∧
    out.w.gs.prev_hand_center = none ∧
    out.w.gs.smoothed_screen_pos = none ∧
    out.w.gs.smoothed_pass2 = none ∧
    out.w.gs.prev_raw_pos = none ∧
    out.w.gs.last_output_pos = none ∧
    out.w.gs.dwell_reference_pos = none ∧
    out.w.gs.dwell_start_time = none ∧
    out.w.gs.dwell_triggered = false ∧
    out.w.gs.fist_history = w.gs.fist_history ∧
    out.w.gs.last_action_time = w.gs.last_action_time ∧
    out.w.gs.scroll_exit_counter = w.gs.scroll_exit_counter ∧
    out.w.mouse = w.mouse := by
  have hsafe : is_safe_to_control cfg false = false := by
    simp [is_safe_to_control, hg]
  simp only [detect_gestures, if_pos hsafe] at hout
  obtain ⟨q1, q2, q3, q4, q5, q6, q7, q8, q9, q10, q11, q12, q13, q14,
    q15, q16, q17, q18, q19, q20⟩ := safetyBranch_spec cfg w flags out hout
  refine ⟨by simp_all, ?ev, q4, q7, q8, ?acc, q11, q12, q13, q14, q15,
    q16, q17, q18, q19, q20, q10, q1⟩
  case ev => simp_all
  case acc =>
    intro hne
    simp_all

/-- C2 witness: the gaze-lost tick of the C2 scenario answers
`safety_disabled` with the drag flag clear. -/
theorem C2_safety_interlock_witness :
    (detect_gestures cfgGaze
      (runWorld cfgGaze (initWorld (500, 500)) (List.take 1 inpsGaze))
      pinchPose false 1 OSFlags.ok).act = Action.safety_disabled ∧
    (detect_gestures cfgGaze
      (runWorld cfgGaze (initWorld (500, 500)) (List.take 1 inpsGaze))
      pinchPose false 1 OSFlags.ok).w.gs.is_dragging = false :=
  ⟨(C2_safety_interlock cfgGaze _ pinchPose 1 OSFlags.ok _ rfl rfl rfl).1,
   (C2_safety_interlock cfgGaze _ pinchPose 1 OSFlags.ok _ rfl rfl rfl).2.2.1⟩

lemma rightClickFires_iff (cfg : Config) (h : List Bool) (now la : ℚ) :
    rightClickFires cfg h now la = true ↔
      (5 ≤ h.length ∧
       h.getD (h.length - 1) false = false ∧
       h.getD (h.length - 2) false = false ∧
       (h.getD (h.length - 5) false = true ∨ h.getD (h.length - 4) false = true ∨
        h.getD (h.length - 3) false = true) ∧
       cfg.action_cooldown < now - la) := by
  unfold rightClickFires
  by_cases hl : 5 ≤ h.length
  · have hgd : ∀ i, (h.drop (h.length - 5)).getD i false =
        h.getD (h.length - 5 + i) false := by
      intro i
      simp [List.getD_eq_getElem?_getD, List.getElem?_drop]
    have e1 : h.length - 5 + 4 = h.length - 1 := by omega
    have e2 : h.length - 5 + 3 = h.length - 2 := by omega
    have e3 : h.length - 5 + 0 = h.length - 5 := by omega
    have e4 : h.length - 5 + 1 = h.length - 4 := by omega
    have e5 : h.length - 5 + 2 = h.length - 3 := by omega
    rw [if_pos hl]
    simp only [hgd, e1, e2, e3, e4, e5]
    simp [hl, and_assoc, or_assoc]
  · rw [if_neg hl]
    simp [hl]

/-! ## C4: the right-click trigger inspects only five history slots -/

/-- C4 (amended): each safe tick pushes `detect_fist` into the 8-slot ring
buffer, and `fist_right_click` fires exactly when the history holds at
least 5 entries, the two most recent are `false`, at least one of the
three entries before them is `true`, and the cooldown has elapsed; the
`rightClick` event is emitted iff the action is `fist_right_click`. -/
theorem C4_right_click_rule (cfg : Config) (w : World) (lm : Landmarks)
    (looking : Bool) (t : ℚ) (flags : OSFlags) (out : StepOut)
    (hsafe : is_safe_to_control cfg looking = true)
    (hout : detect_gestures cfg w lm looking t flags = out) :
    out.w.gs.fist_history = histPush w.gs.fist_history (detect_fist cfg lm) ∧
    (out.act = Action.fist_right_click ↔
      (5 ≤ (histPush w.gs.fist_history (detect_fist cfg lm)).length ∧
       (histPush w.gs.fist_history (detect_fist cfg lm)).getD
         ((histPush w.gs.fist_history (detect_fist cfg lm)).length - 1) false = false ∧
       (histPush w.gs.fist_history (detect_fist cfg lm)).getD
         ((histPush w.gs.fist_history (detect_fist cfg lm)).length - 2) false = false ∧
       ((histPush w.gs.fist_history (detect_fist cfg lm)).getD
          ((histPush w.gs.fist_history (detect_fist cfg lm)).length - 5) false = true ∨
        (histPush w.gs.fist_history (detect_fist cfg lm)).getD
          ((histPush w.gs.fist_history (detect_fist cfg lm)).length - 4) false = true ∨
        (histPush w.gs.fist_history (detect_fist cfg lm)).getD
          ((histPush w.gs.fist_history (detect_fist cfg lm)).length - 3) false = true) ∧
       cfg.action_cooldown < t - w.gs.last_action_time)) ∧
    (OSEvent.rightClick ∈ out.events ↔ out.act = Action.fist_right_click) := by
  obtain ⟨h1, h2, h3⟩ :=
    (detect_gestures_spec cfg w lm looking t flags out hout).2.1 hsafe
  exact ⟨h1, h2.trans (rightClickFires_iff cfg _ t w.gs.last_action_time), h3⟩

/-- C4 witness: history `[true, false, false, false]` plus a fifth
non-fist frame fires the right click. -/
theorem C4_right_click_rule_witness :
    (detect_gestures cfgRC fistEdgeState neutralPose true 10 OSFlags.ok).act =
      Action.fist_right_click := by
  have h := C4_right_click_rule cfgRC fistEdgeState neutralPose true 10
    OSFlags.ok _ (by with_unfolding_all decide) rfl
  exact h.2.1.mpr (by with_unfolding_all decide)

/-! ## C3: exclusion between clicks, drags and scrolls -/

/-- C3 (amended): on any tick, a left `click` event is only emitted when
the tick began with `is_dragging` false, and a `scroll` event only when
the tick began undragged and the frame is not pinched; the fist
right-click is not subject to this exclusion (see `C3_counterexample`). -/
theorem C3_mutual_exclusion (cfg : Config) (w : World) (lm : Landmarks)
    (looking : Bool) (t : ℚ) (flags : OSFlags) (out : StepOut)
    (hout : detect_gestures cfg w lm looking t flags = out) :
    (OSEvent.click ∈ out.events → w.gs.is_dragging = false) ∧
    (∀ a : ℚ, OSEvent.scroll a ∈ out.events →
      w.gs.is_dragging = false ∧ isPinched cfg lm = false) := by
  have h := detect_gestures_spec cfg w lm looking t flags out hout
  exact ⟨h.2.2.1, h.2.2.2.1⟩

/-- C3 witness: the quick-pinch release click of the C7 scenario indeed
fires on an undragged tick. -/
theorem C3_mutual_exclusion_witness :
    OSEvent.click ∈
      (detect_gestures cfgPinch
        (runWorld cfgPinch (initWorld (500, 500)) (List.take 1 inpsClickOk))
        neutralPose true (1 / 2) OSFlags.ok).events ∧
    (runWorld cfgPinch (initWorld (500, 500))
      (List.take 1 inpsClickOk)).gs.is_dragging = false :=
  ⟨by with_unfolding_all decide,
   (C3_mutual_exclusion cfgPinch _ neutralPose true (1 / 2) OSFlags.ok _ rfl).1
     (by with_unfolding_all decide)⟩

/-! ## C6: a dwell click does not repeat while stationary -/

/-- C6 (amended): when a dwell click fires the tick sets `dwell_triggered`
and restamps `dwell_start_time` to the current time, and any tick entered
with `dwell_triggered` set cannot answer `dwell_click` again — clearing
the flag requires leaving the dwell radius or an external dwell reset. -/
theorem C6_dwell_no_repeat (cfg : Config) (w : World) (lm : Landmarks)
    (looking : Bool) (t : ℚ) (flags : OSFlags) (out : StepOut)
    (hout : detect_gestures cfg w lm looking t flags = out) :
    (out.act = Action.dwell_click →
      out.w.gs.dwell_triggered = true ∧ out.w.gs.dwell_start_time = some t) ∧
    (w.gs.dwell_triggered = true → out.act ≠ Action.dwell_click) := by
  have h := detect_gestures_spec cfg w lm looking t flags out hout
  exact ⟨h.2.2.2.2.1, h.2.2.2.2.2⟩

/-- C6 witness: after the dwell click of the C6 scenario the triggered
flag is set and a further stationary frame does not click again. -/
theorem C6_dwell_no_repeat_witness :
    (runWorld cfgDwell (initWorld (500, 500))
      (List.take 2 inpsDwell)).gs.dwell_triggered = true ∧
    (detect_gestures cfgDwell
      (runWorld cfgDwell (initWorld (500, 500)) (List.take 2 inpsDwell))
      openPose true 3 OSFlags.ok).act ≠ Action.dwell_click :=
  ⟨by with_unfolding_all decide,
   (C6_dwell_no_repeat cfgDwell _ openPose true 3 OSFlags.ok _ rfl).2
     (by with_unfolding_all decide)⟩

/-! ## C7: failed OS calls return early without the success updates -/

/-- C7 (amended): when the OS pointer call of a pinch-pipeline branch
raises, the branch returns its `*_failed` action immediately: a failed
click leaves the whole state (cooldown clock and pinch timer included)
unchanged; a failed drag start stamps the pinch timer but leaves
`is_dragging` false and the cooldown clock unchanged; a failed drag end
clears only the dragging flag, keeping the drag anchors and pinch timer;
no retry occurs within the tick. -/
theorem C7_failure_handling (cfg : Config) (w : World) (hc : ℚ × ℚ)
    (t : ℚ) (flags : OSFlags) :
    (∀ pst, w.gs.pinch_start_time = some pst →
      w.gs.is_dragging = false →
      t - pst < cfg.drag_threshold →
      cfg.action_cooldown < t - w.gs.last_action_time →
      flags.click_fails = true →
      pinchSection cfg w hc false t flags =
        Sum.inr ⟨w, [], Action.click_failed⟩) ∧
    (cfg.drag_threshold ≤ t - w.gs.pinch_start_time.getD t →
      w.gs.is_dragging = false →
      flags.position_fails = true →
      pinchSection cfg w hc true t flags =
        Sum.inr ⟨⟨{ w.gs with pinch_start_time := some (w.gs.pinch_start_time.getD t) }, w.mouse⟩,
          [], Action.drag_failed⟩) ∧
    (∀ pst, w.gs.pinch_start_time = some pst →
      w.gs.is_dragging = true →
      flags.mouse_up_fails = true →
      pinchSection cfg w hc false t flags =
        Sum.inr ⟨⟨{ w.gs with is_dragging := false }, w.mouse⟩, [],
          Action.drag_end_failed⟩) := by
  refine ⟨?clickf, ?startf, ?endf⟩
  case clickf =>
    intro pst hpst hdrag hshort hcool hfail
    simp [pinchSection, hpst, hdrag, hshort, hcool, hfail]
  case startf =>
    intro hlong hdrag hfail
    simp [pinchSection, hlong, hdrag, hfail]
  case endf =>
    intro pst hpst hdrag hfail
    simp [pinchSection, hpst, hdrag, hfail]

/-- C7 witness: a pending quick pinch whose click raises returns
`click_failed` with the state exactly as it was. -/
theorem C7_failure_handling_witness :
    pinchSection cfgPinch wPend (0, 0) false (1 / 2) failClick =
      Sum.inr ⟨wPend, [], Action.click_failed⟩ :=
  (C7_failure_handling cfgPinch wPend (0, 0) (1 / 2) failClick).1 0 rfl rfl
    (by with_unfolding_all decide) (by with_unfolding_all decide) rfl

/-! ## C5: when and what the scroll detector emits -/

/-- C5 (amended): with a set reference and the two-finger pose, a tick
whose movement-since-reference passes the dead zone adds that whole
movement to the accumulator, and a single `scroll` event of magnitude
`scroll_amount` fires exactly when the updated accumulator reaches
`scroll_threshold_val`, signed negative for upward accumulation; on
firing the accumulator resets and the reference re-anchors. Conversely
every emitted scroll event arises this way. -/
theorem C5_scroll_events (cfg : Config) (s : GState) (lm : Landmarks)
    (r : GState × List OSEvent × Bool)
    (hr : detect_two_finger_scroll cfg s lm = r) :
    (∀ ref, s.scroll_reference_y = some ref →
      is_two_finger_pose lm = true →
      cfg.scroll_dead_zone ≤ |two_finger_y lm - ref| →
      cfg.scroll_threshold_val ≤ |s.scroll_accumulated + (two_finger_y lm - ref)| →
      r.2.1 = [OSEvent.scroll
          (if 0 < s.scroll_accumulated + (two_finger_y lm - ref)
           then -cfg.scroll_amount else cfg.scroll_amount)] ∧
      r.1.scroll_accumulated = 0 ∧
      r.1.scroll_reference_y = some (two_finger_y lm)) ∧
    (∀ e ∈ r.2.1, ∃ ref, s.scroll_reference_y = some ref ∧
      is_two_finger_pose lm = true ∧
      cfg.scroll_dead_zone ≤ |two_finger_y lm - ref| ∧
      cfg.scroll_threshold_val ≤ |s.scroll_accumulated + (two_finger_y lm - ref)| ∧
      e = OSEvent.scroll
        (if 0 < s.scroll_accumulated + (two_finger_y lm - ref)
         then -cfg.scroll_amount else cfg.scroll_amount)) := by
  constructor
  · intro ref href hpose hdz hth
    have h1 : ¬(|two_finger_y lm - ref| < cfg.scroll_dead_zone) := not_lt.2 hdz
    rw [← hr]
    simp [detect_two_finger_scroll, hpose, href, h1, hth]
  · intro e he
    subst hr
    by_cases hpose : is_two_finger_pose lm = true
    · cases href : s.scroll_reference_y with
      | none => simp [detect_two_finger_scroll, hpose, href] at he
      | some ref =>
        by_cases hdz : |two_finger_y lm - ref| < cfg.scroll_dead_zone
        · simp [detect_two_finger_scroll, hpose, href, hdz] at he
        · by_cases hth : cfg.scroll_threshold_val ≤
              |s.scroll_accumulated + (two_finger_y lm - ref)|
          · have hev : e = OSEvent.scroll
                (if 0 < s.scroll_accumulated + (two_finger_y lm - ref)
                 then -cfg.scroll_amount else cfg.scroll_amount) := by
              simpa [detect_two_finger_scroll, hpose, href, hdz, hth] using he
            exact ⟨ref, rfl, hpose, not_lt.1 hdz, hth, hev⟩
          · simp [detect_two_finger_scroll, hpose, href, hdz, hth] at he
    · have hpose2 : is_two_finger_pose lm = false := by
        simpa using hpose
      simp only [detect_two_finger_scroll, hpose2, Bool.not_false, if_true] at he
      split at he <;> simp at he

/-- C5 witness: from an anchored reference, a 0.06-unit move at the
default thresholds fires one scroll of -2 and resets the accumulator. -/
theorem C5_scroll_events_witness :
    (detect_two_finger_scroll cfgScroll scrollActiveState
      (scrollPose (6 / 100))).2.1 = [OSEvent.scroll (-2)] ∧
    (detect_two_finger_scroll cfgScroll scrollActiveState
      (scrollPose (6 / 100))).1.scroll_accumulated = 0 := by
  have h := (C5_scroll_events cfgScroll scrollActiveState (scrollPose (6 / 100))
      _ rfl).1 (3 / 10) rfl (by with_unfolding_all decide)
      (by with_unfolding_all decide) (by with_unfolding_all decide)
  refine ⟨?ev, h.2.1⟩
  case ev =>
    rw [h.1]
    with_unfolding_all decide

/-! ## C9: the mapper under a constant input -/

lemma ratSqrt_zero : ratSqrt 0 = 0 := rfl

lemma map_to_screen_cold (cfg : Config) (s : GState) (x y : ℚ)
    (h1 : s.smoothed_screen_pos = none) (h2 : s.smoothed_pass2 = none)
    (h3 : s.last_output_pos = none) ( _h4 : s.prev_raw_pos = none) :
    map_to_screen cfg s x y =
      (steadyState cfg s (mapRaw cfg x y), clampEdge cfg (mapRaw cfg x y)) := by
  simp [map_to_screen, h1, h2, h3, steadyState]

lemma map_to_screen_steady (cfg : Config) (s : GState) (x y : ℚ) :
    map_to_screen cfg (steadyState cfg s (mapRaw cfg x y)) x y =
      (steadyState cfg s (mapRaw cfg x y), clampEdge cfg (mapRaw cfg x y)) := by
  have hz : ratSqrt (((mapRaw cfg x y).1 - (mapRaw cfg x y).1) ^ 2 +
      ((mapRaw cfg x y).2 - (mapRaw cfg x y).2) ^ 2) = 0 := by
    have hzero : ((mapRaw cfg x y).1 - (mapRaw cfg x y).1) ^ 2 +
        ((mapRaw cfg x y).2 - (mapRaw cfg x y).2) ^ 2 = 0 := by ring
    rw [hzero, ratSqrt_zero]
  have hEMA : ∀ a v : ℚ, a * v + (1 - a) * v = v := by
    intro a v
    ring
  have hminz : min ((0 : ℚ) / 80) 1 = 0 := by norm_num
  simp only [map_to_screen, steadyState, hz, hminz, hEMA, Prod.mk.eta]
  split
  next => rfl
  next => rfl

lemma mapperState_steady (cfg : Config) (p : ℚ × ℚ) (s : GState)
    (h1 : s.smoothed_screen_pos = none) (h2 : s.smoothed_pass2 = none)
    (h3 : s.last_output_pos = none) (h4 : s.prev_raw_pos = none) :
    ∀ n, mapperState cfg p s (n + 1) = steadyState cfg s (mapRaw cfg p.1 p.2) := by
  intro n
  induction n with
  | zero =>
    show (map_to_screen cfg (mapperState cfg p s 0) p.1 p.2).1 = _
    rw [show mapperState cfg p s 0 = s from rfl,
      map_to_screen_cold cfg s p.1 p.2 h1 h2 h3 h4]
  | succ n ih =>
    show (map_to_screen cfg (mapperState cfg p s (n + 1)) p.1 p.2).1 = _
    rw [ih, map_to_screen_steady]

/-- C9 (amended): feeding one identical raw position to a cold mapper
(all smoothing state `none`) converges immediately — from the first frame
on, every output equals the calibration-mapped raw position clamped to
the `[screen_edge_margin, screen − screen_edge_margin]` box, and further
identical inputs never change it. The fixed point is the clamped mapped
position, not the mapped position itself (see `C9_counterexample`). -/
theorem C9_mapper_convergence (cfg : Config) (s : GState) (p : ℚ × ℚ)
    (h1 : s.smoothed_screen_pos = none) (h2 : s.smoothed_pass2 = none)
    (h3 : s.last_output_pos = none) (h4 : s.prev_raw_pos = none) :
    ∀ n, mapperOut cfg p s n = clampEdge cfg (mapRaw cfg p.1 p.2) := by
  intro n
  cases n with
  | zero =>
    show (map_to_screen cfg (mapperState cfg p s 0) p.1 p.2).2 = _
    rw [show mapperState cfg p s 0 = s from rfl,
      map_to_screen_cold cfg s p.1 p.2 h1 h2 h3 h4]
  | succ n =>
    show (map_to_screen cfg (mapperState cfg p s (n + 1)) p.1 p.2).2 = _
    rw [mapperState_steady cfg p s h1 h2 h3 h4 n, map_to_screen_steady]

/-- C9 witness: 100 frames of a constant interior input output the
clamped mapped position. -/
theorem C9_mapper_convergence_witness :
    mapperOut cfgCal (17 / 100, 17 / 100) initGState 99 =
      clampEdge cfgCal (mapRaw cfgCal (17 / 100) (17 / 100)) :=
  C9_mapper_convergence cfgCal initGState (17 / 100, 17 / 100) rfl rfl rfl rfl 99

end AirPoint
